import Mathlib

/-!
Verification development for the SimpleScreenRecorder GLInject capture
channel and muxer core.  The definitions below are shallow embeddings of
the C++ sources:

* `GLFrameGrabber::GrabFrame`, `GLFrameGrabber::GLFrameGrabber` and
  `GLImageDrawCursor` from the GLInject producer source file;
* `Muxer::MuxerThread` (stream selection, packet preparation and the
  statistics block).

Machine integers are modelled as `Nat`/`Int`; where the C code can wrap
(the `uint8_t` stores of the cursor blender, the `uint64_t` byte counter
of the muxer statistics) the embedding applies the corresponding
`% 2^w` explicitly.  External collaborators (X11, OpenGL, the shm
syscalls, libav) are modelled as oracle inputs: the values they would
return are parameters of the step functions.  Floating point `double`
values that carry timestamps are modelled as `Rat`; the sentinel values
`-DBL_MAX` / `+DBL_MAX` used by the muxer are modelled as `Option`
(`none` = sentinel), which is faithful for every finite pts value.
-/

/-- `grow_align16` from `Global.h`.  Modelled from the spec: the source
header `Global.h` is not part of the repository snapshot; the spec fixes
the stride as `((width*4 + 15) & ~15)`, i.e. rounding up to a multiple
of 16. -/
def grow_align16 (x : Nat) : Nat := (x + 15) / 16 * 16

/-- `positive_mod` from `Global.h`.  Modelled from the spec: the number of
unread frames is the mathematical `(write_pos - read_pos) mod
(2*ring_buffer_size)`, always non-negative.  `Int.emod` is exactly this
mod for a positive modulus. -/
def positive_mod (a b : Int) : Int := a.emod b

/-- Flag bit for `GLINJECT_FLAG_LIMIT_FPS`.  Modelled from the spec:
`ShmStructs.h` is not in the snapshot; the spec only requires the flags
to be a bitset with distinct bits for LIMIT_FPS, CAPTURE_FRONT and
RECORD_CURSOR. -/
def GLINJECT_FLAG_LIMIT_FPS : Nat := 1

/-- Flag bit for `GLINJECT_FLAG_CAPTURE_FRONT` (modelled from the spec,
see `GLINJECT_FLAG_LIMIT_FPS`). -/
def GLINJECT_FLAG_CAPTURE_FRONT : Nat := 2

/-- Flag bit for `GLINJECT_FLAG_RECORD_CURSOR` (modelled from the spec,
see `GLINJECT_FLAG_LIMIT_FPS`). -/
def GLINJECT_FLAG_RECORD_CURSOR : Nat := 4

/-- The shared-memory header (`GLInjectHeader`).  Modelled from the spec
(`ShmStructs.h` is not in the snapshot): configuration block, geometry,
frame counter and the two ring cursors.  The hotkey sub-protocol fields
play no role in the claims and are omitted.  `frame_counter` is the
spec's abstract monotonic counter. -/
structure GLInjectHeader where
  ring_buffer_size : Nat
  max_bytes : Nat
  target_fps : Nat
  flags : Nat
  current_width : Nat
  current_height : Nat
  frame_counter : Nat
  read_pos : Nat
  write_pos : Nat
deriving Repr, DecidableEq

/-- A slot descriptor (`GLInjectFrameInfo`): the payload segment id plus
the mutable `timestamp`/`width`/`height` fields filled by the producer. -/
structure GLInjectFrameInfo where
  shm_id : Int
  timestamp : Int
  width : Nat
  height : Nat
deriving Repr, DecidableEq

/-- The producer-side state of `GLFrameGrabber`: the shared header, the
descriptor table, the payload segments (each a byte-indexed map), and
the member variables of the C++ class that the claims touch. -/
structure GrabberState where
  header : GLInjectHeader
  frameinfos : List GLInjectFrameInfo
  payloads : List (Nat → Nat)
  m_width : Nat
  m_height : Nat
  m_next_frame_time : Int
  m_warn_too_small : Bool
  m_warn_too_large : Bool
  m_ring_buffer_size : Nat
  m_max_bytes : Nat
  m_target_fps : Nat
  m_flags : Nat
  m_has_xfixes : Bool

/-- The cursor image returned by `XFixesGetCursorImage`: hotspot,
position, size and the ARGB pixel array (row-major, 32 significant
bits per entry). -/
structure XFixesCursorImage where
  x : Int
  y : Int
  xhot : Int
  yhot : Int
  width : Nat
  height : Nat
  pixels : Nat → Nat

/-- Oracle inputs consumed by one `GrabFrame` call: the geometry
reported by `XGetGeometry`, the clock value at the pacing step, the
clock value after a pacing sleep, the pixel data produced by
`glReadPixels`, and the results of `XTranslateCoordinates` and
`XFixesGetCursorImage` (`none` models a NULL/failed call). -/
structure GrabInput where
  width : Nat
  height : Nat
  now : Int
  nowAfterSleep : Int
  pixels : Nat → Nat
  translate : Option (Int × Int)
  xcim : Option XFixesCursorImage

/-- How one `GrabFrame` call ended. -/
inductive GrabResult where
  | tooSmall
  | tooLarge
  | ringFull
  | pacingDrop
  | published
deriving Repr, DecidableEq

/-- The shared-memory writes and sleeps performed by a `GrabFrame`
call, in program order. -/
inductive GrabEvent where
  | writeGeometry (w h : Nat)
  | incFrameCounter
  | warnTooSmall
  | warnTooLarge
  | sleepFor (d : Int)
  | writeFrameInfo (slot : Nat)
  | writePayload (slot : Nat)
  | writeWritePos (v : Nat)
deriving Repr, DecidableEq

/-- Result record of one `GrabFrame` call. -/
structure GrabOutcome where
  state : GrabberState
  result : GrabResult
  events : List GrabEvent

/-- Byte predicate selectors for counting warnings in an event trace. -/
def isWarnTooSmall : GrabEvent → Bool
  | .warnTooSmall => true
  | _ => false

/-- Selector for the too-large warning event. -/
def isWarnTooLarge : GrabEvent → Bool
  | .warnTooLarge => true
  | _ => false

/-- `GLImageDrawCursor`, single pixel: the three `uint8_t` stores into
`image_pixel[2..0]`.  For a fully opaque cursor pixel the channels are
overwritten; otherwise the premultiplied-alpha blend
`(in * (255 - a) + 127) / 255 + c` is stored, truncated to a byte as
the `uint8_t` assignment does. -/
def drawCursorPixel (img : Nat → Nat) (base : Nat) (cpix : Nat) : Nat → Nat :=
  let a := cpix / 2 ^ 24 % 256
  let r := cpix / 2 ^ 16 % 256
  let g := cpix / 2 ^ 8 % 256
  let b := cpix % 256
  if a = 255 then
    Function.update (Function.update (Function.update img (base + 2) r) (base + 1) g) base b
  else
    let r2 := (img (base + 2) * (255 - a) + 127) / 255 + r
    let g2 := (img (base + 1) * (255 - a) + 127) / 255 + g
    let b2 := (img base * (255 - a) + 127) / 255 + b
    Function.update (Function.update (Function.update img (base + 2) (r2 % 256)) (base + 1) (g2 % 256))
      base (b2 % 256)

/-- The integers `lo, lo+1, ..., hi-1` (empty when `hi ≤ lo`). -/
def intRange (lo hi : Int) : List Int :=
  (List.range (hi - lo).toNat).map fun (k : Nat) => lo + (k : Int)

/-- Byte offset of the first channel of the image pixel written for
cursor-relative coordinates `(j, i)`: row `image_height - 1 - y - j`
(bottom-up addressing), column `x + i`, 4 bytes per pixel. -/
def cursorBase (stride ih : Nat) (x y j i : Int) : Nat :=
  stride * (ih - 1 - (y + j).toNat) + 4 * (x + i).toNat

/-- `GLImageDrawCursor` from the GLInject source: computes the cursor
position relative to the recording area, clips it against the image,
and composites every visible cursor pixel over the bottom-up image. -/
def drawCursorImage (xcim : XFixesCursorImage) (image : Nat → Nat)
    (stride iw ih : Nat) (rx ry : Int) : Nat → Nat :=
  let x := xcim.x - xcim.xhot - rx
  let y := xcim.y - xcim.yhot - ry
  let l := max 0 (-x)
  let r := min (xcim.width : Int) ((iw : Int) - x)
  let t := max 0 (-y)
  let b := min (xcim.height : Int) ((ih : Int) - y)
  (intRange t b).foldl
    (fun img j =>
      (intRange l r).foldl
        (fun img2 i =>
          drawCursorPixel img2 (cursorBase stride ih x y j i)
            (xcim.pixels (xcim.width * j.toNat + i.toNat)))
        img)
    image

/-- Number of unread frames in the ring, as computed by `GrabFrame`:
`positive_mod(write_pos - read_pos, ring_buffer_size * 2)`. -/
def framesReady (wp rp n : Nat) : Int :=
  positive_mod ((wp : Int) - (rp : Int)) ((n : Int) * 2)

/-- The publish tail of `GrabFrame`: fill the slot descriptor
(`timestamp`, `width`, `height`), capture the pixels into the payload
segment (compositing the cursor when `RECORD_CURSOR` is set, XFixes is
available and both X calls succeed), then advance `write_pos` to
`(write_pos + 1) mod (ring_buffer_size * 2)`. -/
def publishFrame (s : GrabberState) (inp : GrabInput) (write_pos image_stride : Nat)
    (timestamp : Int) (ev : List GrabEvent) : GrabOutcome :=
  let current_frame := write_pos % s.m_ring_buffer_size
  let old_fi := s.frameinfos.getD current_frame ⟨0, 0, 0, 0⟩
  let fi : GLInjectFrameInfo :=
    { shm_id := old_fi.shm_id, timestamp := timestamp, width := s.m_width, height := s.m_height }
  let s1 := { s with frameinfos := s.frameinfos.set current_frame fi }
  let data := inp.pixels
  let data :=
    if s1.m_flags &&& GLINJECT_FLAG_RECORD_CURSOR ≠ 0 ∧ s1.m_has_xfixes then
      match inp.translate with
      | some (ix, iy) =>
        match inp.xcim with
        | some c => drawCursorImage c data image_stride s1.m_width s1.m_height ix iy
        | none => data
      | none => data
    else data
  let s2 := { s1 with payloads := s1.payloads.set current_frame data }
  let wp := (write_pos + 1) % (s2.m_ring_buffer_size * 2)
  let s3 := { s2 with header := { s2.header with write_pos := wp } }
  { state := s3, result := .published,
    events := ev ++ [.writeFrameInfo current_frame, .writePayload current_frame, .writeWritePos wp] }

/-- `GLFrameGrabber::GrabFrame`.  In program order: observe the
geometry, publish it and bump `frame_counter`, reject too-small and
too-large frames (one-shot warnings), drop silently when the ring is
full, apply pacing when `target_fps > 0` (sleep when `LIMIT_FPS` is
set, otherwise drop early frames), then publish the frame.  The
OpenGL state save/restore calls and the error probes have no effect on
the modelled state and are omitted; `GetGLVersion` is an external
probe of the host GL and is likewise omitted. -/
def grabFrame (s0 : GrabberState) (inp : GrabInput) : GrabOutcome :=
  let w := inp.width
  let h := inp.height
  let s := { s0 with
    m_width := w, m_height := h,
    header := { s0.header with
      current_width := w, current_height := h,
      frame_counter := s0.header.frame_counter + 1 } }
  let ev0 : List GrabEvent := [.writeGeometry w h, .incFrameCounter]
  let image_stride := grow_align16 (w * 4)
  if w < 2 ∨ h < 2 then
    if s.m_warn_too_small then
      { state := { s with m_warn_too_small := false }, result := .tooSmall,
        events := ev0 ++ [.warnTooSmall] }
    else
      { state := s, result := .tooSmall, events := ev0 }
  else if w > 10000 ∨ h > 10000 ∨ image_stride * h > s.m_max_bytes then
    if s.m_warn_too_large then
      { state := { s with m_warn_too_large := false }, result := .tooLarge,
        events := ev0 ++ [.warnTooLarge] }
    else
      { state := s, result := .tooLarge, events := ev0 }
  else
    let read_pos := s.header.read_pos
    let write_pos := s.header.write_pos
    if (s.m_ring_buffer_size : Int) ≤ framesReady write_pos read_pos s.m_ring_buffer_size then
      { state := s, result := .ringFull, events := ev0 }
    else
      if 0 < s.m_target_fps then
        let delay : Int := 1000000 / (s.m_target_fps : Int)
        if s.m_flags &&& GLINJECT_FLAG_LIMIT_FPS ≠ 0 then
          if inp.now < s.m_next_frame_time then
            let s1 := { s with
              m_next_frame_time := max (s.m_next_frame_time + delay) inp.nowAfterSleep }
            publishFrame s1 inp write_pos image_stride inp.nowAfterSleep
              (ev0 ++ [.sleepFor (s.m_next_frame_time - inp.now)])
          else
            let s1 := { s with m_next_frame_time := max (s.m_next_frame_time + delay) inp.now }
            publishFrame s1 inp write_pos image_stride inp.now ev0
        else
          if inp.now < s.m_next_frame_time then
            { state := s, result := .pacingDrop, events := ev0 }
          else
            let s1 := { s with m_next_frame_time := max (s.m_next_frame_time + delay) inp.now }
            publishFrame s1 inp write_pos image_stride inp.now ev0
      else
        publishFrame s inp write_pos image_stride inp.now ev0

/-- A whole producer lifetime: fold `grabFrame` over a list of call
inputs, collecting the per-call results and event traces. -/
def runGrabs (s : GrabberState) : List GrabInput → GrabberState × List (GrabResult × List GrabEvent)
  | [] => (s, [])
  | inp :: rest =>
    let o := grabFrame s inp
    let (s2, outs) := runGrabs o.state rest
    (s2, (o.result, o.events) :: outs)

/-- Total number of events satisfying `p` over a run's traces. -/
def eventCount (p : GrabEvent → Bool) (outs : List (GrabResult × List GrabEvent)) : Nat :=
  (outs.map fun o => o.2.countP p).sum

/-! ## Muxer worker (`Muxer::MuxerThread`) -/

/-- `AV_NOPTS_VALUE`, the libav "unknown timestamp" sentinel:
`INT64_MIN` once cast to `int64_t` as the source does. -/
def AV_NOPTS_VALUE : Int := -(2 ^ 63)

/-- An `AVPacket` as the muxer touches it: the two timestamps, the
stream index and the free-on-destruct ownership flag of the wrapper. -/
structure AVPacketM where
  pts : Int
  dts : Int
  stream_index : Nat
  free_on_destruct : Bool
deriving Repr, DecidableEq

/-- The per-stream data of the container context the worker reads:
`ToDouble(stream->pts)` (the container-reported running pts of the last
written packet), the stream time base and the encoder (codec) time
base, all modelled as rationals. -/
structure AVStreamM where
  pts : Rat
  time_base : Rat
  codec_time_base : Rat
deriving Repr, DecidableEq

/-- One slot of `m_stream_data`: the completion flag and the packet
queue. -/
structure StreamDataM where
  is_done : Bool
  packet_queue : List AVPacketM
deriving Repr, DecidableEq

/-- `m_shared_data`: byte counter and the sliding-window bit-rate
estimator.  `stats_previous_pts = none` models the `NOPTS_DOUBLE`
(`-DBL_MAX`) seed sentinel. -/
structure SharedDataM where
  total_bytes : Nat
  stats_actual_bit_rate : Rat
  stats_previous_pts : Option Rat
  stats_previous_bytes : Nat
deriving Repr, DecidableEq

/-- Whether the selection loop considers stream data `sd`:
`!lock->m_is_done || !lock->m_packet_queue.empty()`. -/
def streamEligible (sd : StreamDataM) : Bool :=
  !sd.is_done || !sd.packet_queue.isEmpty

/-- The selection key of a stream:
`ToDouble(streams[i]->pts) * ToDouble(streams[i]->time_base)`. -/
def streamKey (si : AVStreamM) : Rat :=
  si.pts * si.time_base

/-- The scan of the `for` loop that finds the oldest stream: `i` is the
index of the entry at the head of the remaining list, `acc` the current
`(oldest_stream, oldest_pts)` pair (`none` models the initial
`INVALID_STREAM` / `+DBL_MAX` sentinel pair); an eligible stream
replaces the accumulator exactly when its key is strictly smaller. -/
def findOldestAux : Nat → Option (Nat × Rat) → List (AVStreamM × StreamDataM) → Option (Nat × Rat)
  | _, acc, [] => acc
  | i, acc, p :: rest =>
    let acc2 :=
      if streamEligible p.2 then
        match acc with
        | none => some (i, streamKey p.1)
        | some (j, best) => if streamKey p.1 < best then some (i, streamKey p.1) else some (j, best)
      else acc
    findOldestAux (i + 1) acc2 rest

/-- The stream-selection loop of `Muxer::MuxerThread` over the paired
container-stream / stream-data table. -/
def findOldestStream (ss : List (AVStreamM × StreamDataM)) : Option (Nat × Rat) :=
  findOldestAux 0 none ss

/-- The statistics block at the end of a worker iteration (under the
shared lock): set `m_total_bytes` from the container file offset, seed
the window on first use, and recompute `m_stats_actual_bit_rate` when
the elapsed stream time exceeds the `0.999999` threshold.  The
`uint64_t` subtraction/multiplication is reduced `mod 2^64` as the C
arithmetic does. -/
def statsUpdate (sd : SharedDataM) (offset : Nat) (oldest_pts : Rat) : SharedDataM :=
  let total_bytes := offset
  let seeded :=
    match sd.stats_previous_pts with
    | none => (oldest_pts, total_bytes)
    | some p => (p, sd.stats_previous_bytes)
  let timedelta : Rat := oldest_pts - seeded.1
  if (999999 : Rat) / 1000000 < timedelta then
    { total_bytes := total_bytes
      stats_actual_bit_rate :=
        (((((total_bytes : Int) - (seeded.2 : Int)) * 8).emod (2 ^ 64) : Int) : Rat) / timedelta
      stats_previous_pts := some oldest_pts
      stats_previous_bytes := total_bytes }
  else
    { total_bytes := total_bytes
      stats_actual_bit_rate := sd.stats_actual_bit_rate
      stats_previous_pts := some seeded.1
      stats_previous_bytes := seeded.2 }

/-- The muxer state a worker iteration reads and writes: the container
streams, the per-stream queues, and the shared statistics. -/
structure MuxerState where
  streams : List AVStreamM
  stream_data : List StreamDataM
  shared : SharedDataM

/-- How one iteration of the worker loop ends: leave the loop, sleep
10 ms and retry, write a packet, or hit a container write failure
(which the worker turns into an exception). -/
inductive MuxStep where
  | exit
  | sleepRetry (st : MuxerState)
  | wrote (st : MuxerState) (pkt : AVPacketM)
  | writeError (st : MuxerState)

/-- One iteration of the `for(;;)` loop of `Muxer::MuxerThread`.
Oracle inputs: `rescale` is `av_rescale_q` (libav), `writeOk` the
success of `av_interleaved_write_frame`, `offset` the container file
offset `pb->pos + (buf_ptr - buffer)` observed after the write. -/
def muxerIterate (rescale : Int → Rat → Rat → Int) (writeOk : Bool) (offset : Nat)
    (st : MuxerState) : MuxStep :=
  match findOldestStream (st.streams.zip st.stream_data) with
  | none => .exit
  | some (oldest_stream, oldest_pts) =>
    let sd := st.stream_data.getD oldest_stream ⟨true, []⟩
    match sd.packet_queue with
    | [] => .sleepRetry st
    | p :: rest =>
      let st1 := { st with
        stream_data := st.stream_data.set oldest_stream { sd with packet_queue := rest } }
      let si := st1.streams.getD oldest_stream ⟨0, 0, 0⟩
      let p1 := { p with stream_index := oldest_stream }
      let p2 :=
        if p1.pts ≠ AV_NOPTS_VALUE then
          { p1 with pts := rescale p1.pts si.codec_time_base si.time_base }
        else p1
      let p3 :=
        if p2.dts ≠ AV_NOPTS_VALUE then
          { p2 with dts := rescale p2.dts si.codec_time_base si.time_base }
        else p2
      if writeOk then
        let p4 := { p3 with free_on_destruct := false }
        .wrote { st1 with shared := statsUpdate st1.shared offset oldest_pts } p4
      else .writeError st1

/-! ## Producer attach (`GLFrameGrabber::GLFrameGrabber`) -/

/-- Oracle view of the world the constructor probes: the
`SSR_GLINJECT_SHM` environment value, the outcome of `shmat` on the
main segment, its `shmsize`, the header fields it would read, and per
slot the outcome of `shmat` and the `shmsize` of the payload
segment. -/
structure AttachWorld where
  shm_id : Option Int
  main_attach_ok : Bool
  main_size : Nat
  ring_buffer_size : Nat
  max_bytes : Nat
  frame_shm_id : Nat → Int
  frame_attach_ok : Nat → Bool
  frame_size : Nat → Nat

/-- Constructor outcome: the fatal `exit(-181818181)` path, or success
carrying the list of attached payload segment ids. -/
inductive AttachResult where
  | fatal
  | ok (frames : List Int)
deriving DecidableEq

/-- The per-slot attach loop of the constructor, starting at slot
`start` with `count` slots left: attach the payload segment and
validate its size against `max_bytes`; any failure is fatal
(`none`). -/
def attachFrames (w : AttachWorld) : Nat → Nat → Option (List Int)
  | _, 0 => some []
  | start, count + 1 =>
    if !w.frame_attach_ok start then none
    else if w.frame_size start ≠ w.max_bytes then none
    else
      match attachFrames w (start + 1) count with
      | some rest => some (w.frame_shm_id start :: rest)
      | none => none

/-- `GLFrameGrabber::GLFrameGrabber`, attach-time validation, with the
header and descriptor sizes as parameters (`ShmStructs.h` is not in
the snapshot, so `sizeof(GLInjectHeader)` and
`sizeof(GLInjectFrameInfo)` are abstract): missing environment id,
failed main attach, undersized main segment, ring size outside
`[1,1000]`, `max_bytes` above 1 GiB, wrong main segment size, and any
slot attach/size failure are fatal, in that order. -/
def grabberAttach (szHeader szFrameInfo : Nat) (w : AttachWorld) : AttachResult :=
  if w.shm_id = none then .fatal
  else if !w.main_attach_ok then .fatal
  else if w.main_size < szHeader then .fatal
  else if w.ring_buffer_size = 0 ∨ w.ring_buffer_size > 1000 then .fatal
  else if w.max_bytes > 1024 * 1024 * 1024 then .fatal
  else if w.main_size ≠ szHeader + szFrameInfo * w.ring_buffer_size then .fatal
  else
    match attachFrames w 0 w.ring_buffer_size with
    | some frames => .ok frames
    | none => .fatal

/-! ## Ring-cursor arithmetic -/

lemma framesReady_nonneg (wp rp n : Nat) (hn : 1 ≤ n) :
    0 ≤ framesReady wp rp n := by
  unfold framesReady positive_mod
  apply Int.emod_nonneg
  omega

lemma framesReady_lt (wp rp n : Nat) (hn : 1 ≤ n) :
    framesReady wp rp n < (n : Int) * 2 := by
  unfold framesReady positive_mod
  apply Int.emod_lt_of_pos
  omega

lemma framesReady_succ (wp rp n : Nat) (hn : 1 ≤ n)
    (hlt : framesReady wp rp n < (n : Int)) :
    framesReady ((wp + 1) % (n * 2)) rp n = framesReady wp rp n + 1 := by
  have hn' : (1 : Int) ≤ (n : Int) := by exact_mod_cast hn
  have h0' : (0 : Int) ≤ ((wp : Int) - (rp : Int)) % ((n : Int) * 2) :=
    framesReady_nonneg wp rp n hn
  have hlt' : ((wp : Int) - (rp : Int)) % ((n : Int) * 2) < (n : Int) := hlt
  unfold framesReady positive_mod
  show ((((wp + 1) % (n * 2) : Nat) : Int) - (rp : Int)) % ((n : Int) * 2)
      = ((wp : Int) - (rp : Int)) % ((n : Int) * 2) + 1
  have hcast : (((wp + 1) % (n * 2) : Nat) : Int) = ((wp : Int) + 1) % ((n : Int) * 2) := by
    push_cast
    ring_nf
  rw [hcast]
  have h1 : (((wp : Int) + 1) % ((n : Int) * 2) - (rp : Int)) % ((n : Int) * 2)
      = (((wp : Int) + 1) - (rp : Int)) % ((n : Int) * 2) := by
    conv_rhs => rw [Int.sub_emod]
    rw [Int.sub_emod, Int.emod_emod_of_dvd _ dvd_rfl]
  rw [h1]
  have h2 : ((wp : Int) + 1) - (rp : Int) = ((wp : Int) - (rp : Int)) + 1 := by ring
  rw [h2, Int.add_emod]
  have h3 : (1 : Int) % ((n : Int) * 2) = 1 := by
    apply Int.emod_eq_of_lt
    · norm_num
    · linarith
  rw [h3]
  apply Int.emod_eq_of_lt
  · linarith
  · linarith

/-! ## Claim C9 -/

/-- Claim C9: every `GrabFrame` call publishes the observed geometry
into `current_width`/`current_height` and increments `frame_counter`
by exactly one, on every path (drops included); over a whole run the
counter advances by exactly the number of grab attempts. -/
theorem C9_frame_counter :
    (∀ (s : GrabberState) (inp : GrabInput),
      (grabFrame s inp).state.header.current_width = inp.width ∧
      (grabFrame s inp).state.header.current_height = inp.height ∧
      (grabFrame s inp).state.header.frame_counter = s.header.frame_counter + 1) ∧
    (∀ (s : GrabberState) (inps : List GrabInput),
      (runGrabs s inps).1.header.frame_counter = s.header.frame_counter + inps.length) := by
  have hcall : ∀ (s : GrabberState) (inp : GrabInput),
      (grabFrame s inp).state.header.current_width = inp.width ∧
      (grabFrame s inp).state.header.current_height = inp.height ∧
      (grabFrame s inp).state.header.frame_counter = s.header.frame_counter + 1 := by
    intro s inp
    simp only [grabFrame, publishFrame]
    split_ifs <;> simp
  refine ⟨hcall, ?_⟩
  intro s inps
  induction inps generalizing s with
  | nil => simp [runGrabs]
  | cons inp rest ih =>
    simp only [runGrabs]
    rw [ih (grabFrame s inp).state]
    rw [(hcall s inp).2.2]
    simp only [List.length_cons]
    omega


/-! ## Branch lemmas for `grabFrame` -/

lemma publishFrame_spec (s : GrabberState) (inp : GrabInput)
    (wp stride : Nat) (ts : Int) (ev : List GrabEvent) :
    (publishFrame s inp wp stride ts ev).result = .published ∧
    (publishFrame s inp wp stride ts ev).state.header.write_pos
      = (wp + 1) % (s.m_ring_buffer_size * 2) ∧
    (publishFrame s inp wp stride ts ev).state.header.read_pos = s.header.read_pos ∧
    (publishFrame s inp wp stride ts ev).state.m_next_frame_time = s.m_next_frame_time ∧
    (publishFrame s inp wp stride ts ev).state.m_warn_too_small = s.m_warn_too_small ∧
    (publishFrame s inp wp stride ts ev).state.m_warn_too_large = s.m_warn_too_large ∧
    (publishFrame s inp wp stride ts ev).events = ev ++
      [.writeFrameInfo (wp % s.m_ring_buffer_size),
       .writePayload (wp % s.m_ring_buffer_size),
       .writeWritePos ((wp + 1) % (s.m_ring_buffer_size * 2))] := by
  refine ⟨rfl, rfl, rfl, rfl, rfl, rfl, rfl⟩

lemma publishFrame_result_eq (s : GrabberState) (inp : GrabInput)
    (wp stride : Nat) (ts : Int) (ev : List GrabEvent) :
    (publishFrame s inp wp stride ts ev).result = .published := rfl

lemma publishFrame_writePos_eq (s : GrabberState) (inp : GrabInput)
    (wp stride : Nat) (ts : Int) (ev : List GrabEvent) :
    (publishFrame s inp wp stride ts ev).state.header.write_pos
      = (wp + 1) % (s.m_ring_buffer_size * 2) := rfl

lemma publishFrame_readPos_eq (s : GrabberState) (inp : GrabInput)
    (wp stride : Nat) (ts : Int) (ev : List GrabEvent) :
    (publishFrame s inp wp stride ts ev).state.header.read_pos = s.header.read_pos := rfl

lemma publishFrame_next_eq (s : GrabberState) (inp : GrabInput)
    (wp stride : Nat) (ts : Int) (ev : List GrabEvent) :
    (publishFrame s inp wp stride ts ev).state.m_next_frame_time = s.m_next_frame_time := rfl

lemma publishFrame_warnSmall_eq (s : GrabberState) (inp : GrabInput)
    (wp stride : Nat) (ts : Int) (ev : List GrabEvent) :
    (publishFrame s inp wp stride ts ev).state.m_warn_too_small = s.m_warn_too_small := rfl

lemma publishFrame_warnLarge_eq (s : GrabberState) (inp : GrabInput)
    (wp stride : Nat) (ts : Int) (ev : List GrabEvent) :
    (publishFrame s inp wp stride ts ev).state.m_warn_too_large = s.m_warn_too_large := rfl

lemma publishFrame_events_eq (s : GrabberState) (inp : GrabInput)
    (wp stride : Nat) (ts : Int) (ev : List GrabEvent) :
    (publishFrame s inp wp stride ts ev).events = ev ++
      [.writeFrameInfo (wp % s.m_ring_buffer_size),
       .writePayload (wp % s.m_ring_buffer_size),
       .writeWritePos ((wp + 1) % (s.m_ring_buffer_size * 2))] := rfl

lemma grabFrame_small_spec (s : GrabberState) (inp : GrabInput)
    (h : inp.width < 2 ∨ inp.height < 2) :
    (grabFrame s inp).result = .tooSmall ∧
    (grabFrame s inp).state.header.write_pos = s.header.write_pos ∧
    (grabFrame s inp).state.header.read_pos = s.header.read_pos ∧
    (grabFrame s inp).state.frameinfos = s.frameinfos ∧
    (grabFrame s inp).state.payloads = s.payloads ∧
    (grabFrame s inp).state.m_next_frame_time = s.m_next_frame_time ∧
    (grabFrame s inp).state.m_warn_too_small = false ∧
    (grabFrame s inp).state.m_warn_too_large = s.m_warn_too_large ∧
    (grabFrame s inp).events
      = [.writeGeometry inp.width inp.height, .incFrameCounter]
        ++ (if s.m_warn_too_small then [.warnTooSmall] else []) := by
  simp only [grabFrame]
  rw [if_pos h]
  by_cases hw : s.m_warn_too_small <;> simp [hw]

lemma grabFrame_large_spec (s : GrabberState) (inp : GrabInput)
    (hns : ¬ (inp.width < 2 ∨ inp.height < 2))
    (h : inp.width > 10000 ∨ inp.height > 10000 ∨
         grow_align16 (inp.width * 4) * inp.height > s.m_max_bytes) :
    (grabFrame s inp).result = .tooLarge ∧
    (grabFrame s inp).state.header.write_pos = s.header.write_pos ∧
    (grabFrame s inp).state.header.read_pos = s.header.read_pos ∧
    (grabFrame s inp).state.frameinfos = s.frameinfos ∧
    (grabFrame s inp).state.payloads = s.payloads ∧
    (grabFrame s inp).state.m_next_frame_time = s.m_next_frame_time ∧
    (grabFrame s inp).state.m_warn_too_small = s.m_warn_too_small ∧
    (grabFrame s inp).state.m_warn_too_large = false ∧
    (grabFrame s inp).events
      = [.writeGeometry inp.width inp.height, .incFrameCounter]
        ++ (if s.m_warn_too_large then [.warnTooLarge] else []) := by
  simp only [grabFrame]
  rw [if_neg hns, if_pos h]
  by_cases hw : s.m_warn_too_large <;> simp [hw]

lemma grabFrame_full_spec (s : GrabberState) (inp : GrabInput)
    (hns : ¬ (inp.width < 2 ∨ inp.height < 2))
    (hnl : ¬ (inp.width > 10000 ∨ inp.height > 10000 ∨
              grow_align16 (inp.width * 4) * inp.height > s.m_max_bytes))
    (h : (s.m_ring_buffer_size : Int) ≤
         framesReady s.header.write_pos s.header.read_pos s.m_ring_buffer_size) :
    (grabFrame s inp).result = .ringFull ∧
    (grabFrame s inp).state.header.write_pos = s.header.write_pos ∧
    (grabFrame s inp).state.header.read_pos = s.header.read_pos ∧
    (grabFrame s inp).state.frameinfos = s.frameinfos ∧
    (grabFrame s inp).state.payloads = s.payloads ∧
    (grabFrame s inp).state.m_next_frame_time = s.m_next_frame_time ∧
    (grabFrame s inp).state.m_warn_too_small = s.m_warn_too_small ∧
    (grabFrame s inp).state.m_warn_too_large = s.m_warn_too_large ∧
    (grabFrame s inp).events = [.writeGeometry inp.width inp.height, .incFrameCounter] := by
  simp only [grabFrame]
  rw [if_neg hns, if_neg hnl, if_pos h]
  simp

lemma grabFrame_pacing_drop_spec (s : GrabberState) (inp : GrabInput)
    (hns : ¬ (inp.width < 2 ∨ inp.height < 2))
    (hnl : ¬ (inp.width > 10000 ∨ inp.height > 10000 ∨
              grow_align16 (inp.width * 4) * inp.height > s.m_max_bytes))
    (hfull : ¬ (s.m_ring_buffer_size : Int) ≤
         framesReady s.header.write_pos s.header.read_pos s.m_ring_buffer_size)
    (hfps : 0 < s.m_target_fps)
    (hlim : s.m_flags &&& GLINJECT_FLAG_LIMIT_FPS = 0)
    (hearly : inp.now < s.m_next_frame_time) :
    (grabFrame s inp).result = .pacingDrop ∧
    (grabFrame s inp).state.header.write_pos = s.header.write_pos ∧
    (grabFrame s inp).state.header.read_pos = s.header.read_pos ∧
    (grabFrame s inp).state.frameinfos = s.frameinfos ∧
    (grabFrame s inp).state.payloads = s.payloads ∧
    (grabFrame s inp).state.m_next_frame_time = s.m_next_frame_time ∧
    (grabFrame s inp).state.m_warn_too_small = s.m_warn_too_small ∧
    (grabFrame s inp).state.m_warn_too_large = s.m_warn_too_large ∧
    (grabFrame s inp).events = [.writeGeometry inp.width inp.height, .incFrameCounter] := by
  simp only [grabFrame]
  rw [if_neg hns, if_neg hnl, if_neg hfull, if_pos hfps,
    if_neg (show ¬ s.m_flags &&& GLINJECT_FLAG_LIMIT_FPS ≠ 0 by simp [hlim]),
    if_pos hearly]
  simp

lemma grabFrame_publish_sleep_eq (s : GrabberState) (inp : GrabInput)
    (hns : ¬ (inp.width < 2 ∨ inp.height < 2))
    (hnl : ¬ (inp.width > 10000 ∨ inp.height > 10000 ∨
              grow_align16 (inp.width * 4) * inp.height > s.m_max_bytes))
    (hfull : ¬ (s.m_ring_buffer_size : Int) ≤
         framesReady s.header.write_pos s.header.read_pos s.m_ring_buffer_size)
    (hfps : 0 < s.m_target_fps)
    (hlim : s.m_flags &&& GLINJECT_FLAG_LIMIT_FPS ≠ 0)
    (hearly : inp.now < s.m_next_frame_time) :
    grabFrame s inp = publishFrame
      { s with
        m_width := inp.width
        m_height := inp.height
        header := { s.header with
          current_width := inp.width
          current_height := inp.height
          frame_counter := s.header.frame_counter + 1 }
        m_next_frame_time :=
          max (s.m_next_frame_time + 1000000 / (s.m_target_fps : Int)) inp.nowAfterSleep }
      inp s.header.write_pos (grow_align16 (inp.width * 4)) inp.nowAfterSleep
      [.writeGeometry inp.width inp.height, .incFrameCounter,
       .sleepFor (s.m_next_frame_time - inp.now)] := by
  simp only [grabFrame]
  rw [if_neg hns, if_neg hnl, if_neg hfull, if_pos hfps, if_pos hlim, if_pos hearly]
  rfl

lemma grabFrame_publish_limit_late_eq (s : GrabberState) (inp : GrabInput)
    (hns : ¬ (inp.width < 2 ∨ inp.height < 2))
    (hnl : ¬ (inp.width > 10000 ∨ inp.height > 10000 ∨
              grow_align16 (inp.width * 4) * inp.height > s.m_max_bytes))
    (hfull : ¬ (s.m_ring_buffer_size : Int) ≤
         framesReady s.header.write_pos s.header.read_pos s.m_ring_buffer_size)
    (hfps : 0 < s.m_target_fps)
    (hlim : s.m_flags &&& GLINJECT_FLAG_LIMIT_FPS ≠ 0)
    (hlate : ¬ inp.now < s.m_next_frame_time) :
    grabFrame s inp = publishFrame
      { s with
        m_width := inp.width
        m_height := inp.height
        header := { s.header with
          current_width := inp.width
          current_height := inp.height
          frame_counter := s.header.frame_counter + 1 }
        m_next_frame_time := max (s.m_next_frame_time + 1000000 / (s.m_target_fps : Int)) inp.now }
      inp s.header.write_pos (grow_align16 (inp.width * 4)) inp.now
      [.writeGeometry inp.width inp.height, .incFrameCounter] := by
  simp only [grabFrame]
  rw [if_neg hns, if_neg hnl, if_neg hfull, if_pos hfps, if_pos hlim, if_neg hlate]

lemma grabFrame_publish_late_eq (s : GrabberState) (inp : GrabInput)
    (hns : ¬ (inp.width < 2 ∨ inp.height < 2))
    (hnl : ¬ (inp.width > 10000 ∨ inp.height > 10000 ∨
              grow_align16 (inp.width * 4) * inp.height > s.m_max_bytes))
    (hfull : ¬ (s.m_ring_buffer_size : Int) ≤
         framesReady s.header.write_pos s.header.read_pos s.m_ring_buffer_size)
    (hfps : 0 < s.m_target_fps)
    (hlim : s.m_flags &&& GLINJECT_FLAG_LIMIT_FPS = 0)
    (hlate : ¬ inp.now < s.m_next_frame_time) :
    grabFrame s inp = publishFrame
      { s with
        m_width := inp.width
        m_height := inp.height
        header := { s.header with
          current_width := inp.width
          current_height := inp.height
          frame_counter := s.header.frame_counter + 1 }
        m_next_frame_time := max (s.m_next_frame_time + 1000000 / (s.m_target_fps : Int)) inp.now }
      inp s.header.write_pos (grow_align16 (inp.width * 4)) inp.now
      [.writeGeometry inp.width inp.height, .incFrameCounter] := by
  simp only [grabFrame]
  rw [if_neg hns, if_neg hnl, if_neg hfull, if_pos hfps,
    if_neg (show ¬ s.m_flags &&& GLINJECT_FLAG_LIMIT_FPS ≠ 0 by simp [hlim]),
    if_neg hlate]

lemma grabFrame_publish_nofps_eq (s : GrabberState) (inp : GrabInput)
    (hns : ¬ (inp.width < 2 ∨ inp.height < 2))
    (hnl : ¬ (inp.width > 10000 ∨ inp.height > 10000 ∨
              grow_align16 (inp.width * 4) * inp.height > s.m_max_bytes))
    (hfull : ¬ (s.m_ring_buffer_size : Int) ≤
         framesReady s.header.write_pos s.header.read_pos s.m_ring_buffer_size)
    (hfps : ¬ 0 < s.m_target_fps) :
    grabFrame s inp = publishFrame
      { s with
        m_width := inp.width
        m_height := inp.height
        header := { s.header with
          current_width := inp.width
          current_height := inp.height
          frame_counter := s.header.frame_counter + 1 } }
      inp s.header.write_pos (grow_align16 (inp.width * 4)) inp.now
      [.writeGeometry inp.width inp.height, .incFrameCounter] := by
  simp only [grabFrame]
  rw [if_neg hns, if_neg hnl, if_neg hfull, if_neg hfps]

lemma grabFrame_publish_inv (s : GrabberState) (inp : GrabInput)
    (hpub : (grabFrame s inp).result = .published) :
    ¬ (s.m_ring_buffer_size : Int) ≤
        framesReady s.header.write_pos s.header.read_pos s.m_ring_buffer_size ∧
    (grabFrame s inp).state.header.write_pos
      = (s.header.write_pos + 1) % (s.m_ring_buffer_size * 2) ∧
    (grabFrame s inp).state.header.read_pos = s.header.read_pos ∧
    ¬ (inp.width < 2 ∨ inp.height < 2) ∧
    ¬ (inp.width > 10000 ∨ inp.height > 10000 ∨
       grow_align16 (inp.width * 4) * inp.height > s.m_max_bytes) ∧
    ∃ pre, (grabFrame s inp).events = pre ++
       [.writeFrameInfo (s.header.write_pos % s.m_ring_buffer_size),
        .writePayload (s.header.write_pos % s.m_ring_buffer_size),
        .writeWritePos ((s.header.write_pos + 1) % (s.m_ring_buffer_size * 2))] := by
  by_cases hns : inp.width < 2 ∨ inp.height < 2
  · rw [(grabFrame_small_spec s inp hns).1] at hpub
    simp at hpub
  by_cases hnl : inp.width > 10000 ∨ inp.height > 10000 ∨
      grow_align16 (inp.width * 4) * inp.height > s.m_max_bytes
  · rw [(grabFrame_large_spec s inp hns hnl).1] at hpub
    simp at hpub
  by_cases hfull : (s.m_ring_buffer_size : Int) ≤
      framesReady s.header.write_pos s.header.read_pos s.m_ring_buffer_size
  · rw [(grabFrame_full_spec s inp hns hnl hfull).1] at hpub
    simp at hpub
  by_cases hfps : 0 < s.m_target_fps
  · by_cases hlim : s.m_flags &&& GLINJECT_FLAG_LIMIT_FPS = 0
    · by_cases hearly : inp.now < s.m_next_frame_time
      · rw [(grabFrame_pacing_drop_spec s inp hns hnl hfull hfps hlim hearly).1] at hpub
        simp at hpub
      · rw [grabFrame_publish_late_eq s inp hns hnl hfull hfps hlim hearly]
        refine ⟨hfull, ?_, ?_, hns, hnl, ⟨[.writeGeometry inp.width inp.height, .incFrameCounter], ?_⟩⟩
        · simpa using (publishFrame_spec _ inp s.header.write_pos _ _ _).2.1
        · simpa using (publishFrame_spec _ inp s.header.write_pos _ _ _).2.2.1
        · simpa using (publishFrame_spec _ inp s.header.write_pos _ _ _).2.2.2.2.2.2
    · by_cases hearly : inp.now < s.m_next_frame_time
      · rw [grabFrame_publish_sleep_eq s inp hns hnl hfull hfps hlim hearly]
        refine ⟨hfull, ?_, ?_, hns, hnl,
          ⟨[.writeGeometry inp.width inp.height, .incFrameCounter,
            .sleepFor (s.m_next_frame_time - inp.now)], ?_⟩⟩
        · simpa using (publishFrame_spec _ inp s.header.write_pos _ _ _).2.1
        · simpa using (publishFrame_spec _ inp s.header.write_pos _ _ _).2.2.1
        · simpa using (publishFrame_spec _ inp s.header.write_pos _ _ _).2.2.2.2.2.2
      · rw [grabFrame_publish_limit_late_eq s inp hns hnl hfull hfps hlim hearly]
        refine ⟨hfull, ?_, ?_, hns, hnl, ⟨[.writeGeometry inp.width inp.height, .incFrameCounter], ?_⟩⟩
        · simpa using (publishFrame_spec _ inp s.header.write_pos _ _ _).2.1
        · simpa using (publishFrame_spec _ inp s.header.write_pos _ _ _).2.2.1
        · simpa using (publishFrame_spec _ inp s.header.write_pos _ _ _).2.2.2.2.2.2
  · rw [grabFrame_publish_nofps_eq s inp hns hnl hfull hfps]
    refine ⟨hfull, ?_, ?_, hns, hnl, ⟨[.writeGeometry inp.width inp.height, .incFrameCounter], ?_⟩⟩
    · simpa using (publishFrame_spec _ inp s.header.write_pos _ _ _).2.1
    · simpa using (publishFrame_spec _ inp s.header.write_pos _ _ _).2.2.1
    · simpa using (publishFrame_spec _ inp s.header.write_pos _ _ _).2.2.2.2.2.2

lemma grabFrame_drop_unchanged (s : GrabberState) (inp : GrabInput)
    (hnp : (grabFrame s inp).result ≠ .published) :
    (grabFrame s inp).state.header.write_pos = s.header.write_pos ∧
    (grabFrame s inp).state.header.read_pos = s.header.read_pos ∧
    (grabFrame s inp).state.frameinfos = s.frameinfos ∧
    (grabFrame s inp).state.payloads = s.payloads := by
  by_cases hns : inp.width < 2 ∨ inp.height < 2
  · have h := grabFrame_small_spec s inp hns
    exact ⟨h.2.1, h.2.2.1, h.2.2.2.1, h.2.2.2.2.1⟩
  by_cases hnl : inp.width > 10000 ∨ inp.height > 10000 ∨
      grow_align16 (inp.width * 4) * inp.height > s.m_max_bytes
  · have h := grabFrame_large_spec s inp hns hnl
    exact ⟨h.2.1, h.2.2.1, h.2.2.2.1, h.2.2.2.2.1⟩
  by_cases hfull : (s.m_ring_buffer_size : Int) ≤
      framesReady s.header.write_pos s.header.read_pos s.m_ring_buffer_size
  · have h := grabFrame_full_spec s inp hns hnl hfull
    exact ⟨h.2.1, h.2.2.1, h.2.2.2.1, h.2.2.2.2.1⟩
  by_cases hfps : 0 < s.m_target_fps
  · by_cases hlim : s.m_flags &&& GLINJECT_FLAG_LIMIT_FPS = 0
    · by_cases hearly : inp.now < s.m_next_frame_time
      · have h := grabFrame_pacing_drop_spec s inp hns hnl hfull hfps hlim hearly
        exact ⟨h.2.1, h.2.2.1, h.2.2.2.1, h.2.2.2.2.1⟩
      · rw [grabFrame_publish_late_eq s inp hns hnl hfull hfps hlim hearly] at hnp
        exact absurd (publishFrame_spec _ inp s.header.write_pos _ _ _).1 hnp
    · by_cases hearly : inp.now < s.m_next_frame_time
      · rw [grabFrame_publish_sleep_eq s inp hns hnl hfull hfps hlim hearly] at hnp
        exact absurd (publishFrame_spec _ inp s.header.write_pos _ _ _).1 hnp
      · rw [grabFrame_publish_limit_late_eq s inp hns hnl hfull hfps hlim hearly] at hnp
        exact absurd (publishFrame_spec _ inp s.header.write_pos _ _ _).1 hnp
  · rw [grabFrame_publish_nofps_eq s inp hns hnl hfull hfps] at hnp
    exact absurd (publishFrame_spec _ inp s.header.write_pos _ _ _).1 hnp

/-! ## Claim C2 -/

/-- Claim C2: when a `GrabFrame` call reaches the ring-fullness check,
a full ring (`(write_pos - read_pos) mod (2*ring_buffer_size) ≥
ring_buffer_size`) causes a silent return that leaves `write_pos`,
every slot descriptor and every payload segment unchanged and emits no
warning; when a frame is published, `write_pos` advances to
`(write_pos + 1) mod (2*ring_buffer_size)` and only after the slot
descriptor and payload writes; and every producer step keeps
`(write_pos - read_pos) mod (2*ring_buffer_size)` inside
`[0, ring_buffer_size]`. -/
theorem C2_ring_fullness (s : GrabberState) (inp : GrabInput)
    (hn : 1 ≤ s.m_ring_buffer_size) :
    (¬ (inp.width < 2 ∨ inp.height < 2) →
     ¬ (inp.width > 10000 ∨ inp.height > 10000 ∨
        grow_align16 (inp.width * 4) * inp.height > s.m_max_bytes) →
     (s.m_ring_buffer_size : Int) ≤
        framesReady s.header.write_pos s.header.read_pos s.m_ring_buffer_size →
       (grabFrame s inp).result = .ringFull ∧
       (grabFrame s inp).state.header.write_pos = s.header.write_pos ∧
       (grabFrame s inp).state.frameinfos = s.frameinfos ∧
       (grabFrame s inp).state.payloads = s.payloads ∧
       (grabFrame s inp).events.countP isWarnTooSmall = 0 ∧
       (grabFrame s inp).events.countP isWarnTooLarge = 0) ∧
    ((grabFrame s inp).result = .published →
       (grabFrame s inp).state.header.write_pos
          = (s.header.write_pos + 1) % (s.m_ring_buffer_size * 2) ∧
       ∃ pre, (grabFrame s inp).events = pre ++
          [.writeFrameInfo (s.header.write_pos % s.m_ring_buffer_size),
           .writePayload (s.header.write_pos % s.m_ring_buffer_size),
           .writeWritePos ((s.header.write_pos + 1) % (s.m_ring_buffer_size * 2))]) ∧
    (framesReady s.header.write_pos s.header.read_pos s.m_ring_buffer_size
        ≤ (s.m_ring_buffer_size : Int) →
       0 ≤ framesReady (grabFrame s inp).state.header.write_pos
            (grabFrame s inp).state.header.read_pos s.m_ring_buffer_size ∧
       framesReady (grabFrame s inp).state.header.write_pos
            (grabFrame s inp).state.header.read_pos s.m_ring_buffer_size
          ≤ (s.m_ring_buffer_size : Int)) := by
  refine ⟨?_, ?_, ?_⟩
  · intro h1 h2 h3
    have h := grabFrame_full_spec s inp h1 h2 h3
    refine ⟨h.1, h.2.1, h.2.2.2.1, h.2.2.2.2.1, ?_, ?_⟩
    · rw [h.2.2.2.2.2.2.2.2]
      simp [isWarnTooSmall]
    · rw [h.2.2.2.2.2.2.2.2]
      simp [isWarnTooLarge]
  · intro hpub
    have h := grabFrame_publish_inv s inp hpub
    exact ⟨h.2.1, h.2.2.2.2.2⟩
  · intro hinv
    by_cases hpub : (grabFrame s inp).result = .published
    · have h := grabFrame_publish_inv s inp hpub
      rw [h.2.1, h.2.2.1]
      have hlt : framesReady s.header.write_pos s.header.read_pos s.m_ring_buffer_size
          < (s.m_ring_buffer_size : Int) := lt_of_not_le h.1
      rw [framesReady_succ _ _ _ hn hlt]
      have h0 := framesReady_nonneg s.header.write_pos s.header.read_pos s.m_ring_buffer_size hn
      constructor <;> omega
    · have h := grabFrame_drop_unchanged s inp hpub
      rw [h.1, h.2.1]
      exact ⟨framesReady_nonneg _ _ _ hn, hinv⟩

/-- Witness for `C2_ring_fullness`: a concrete full-ring state (all
four slots pending) where the grab is silently dropped, and a concrete
non-full state where the frame is published and the cursor advances. -/
theorem C2_ring_fullness_witness :
    (grabFrame
      { header := { ring_buffer_size := 4, max_bytes := 1073741824, target_fps := 0, flags := 0,
                    current_width := 0, current_height := 0, frame_counter := 0,
                    read_pos := 0, write_pos := 4 },
        frameinfos := [], payloads := [], m_width := 0, m_height := 0,
        m_next_frame_time := 0, m_warn_too_small := true, m_warn_too_large := true,
        m_ring_buffer_size := 4, m_max_bytes := 1073741824, m_target_fps := 0, m_flags := 0,
        m_has_xfixes := false }
      { width := 100, height := 100, now := 0, nowAfterSleep := 0,
        pixels := fun _ => 0, translate := none, xcim := none }).result = .ringFull ∧
    (grabFrame
      { header := { ring_buffer_size := 4, max_bytes := 1073741824, target_fps := 0, flags := 0,
                    current_width := 0, current_height := 0, frame_counter := 0,
                    read_pos := 0, write_pos := 0 },
        frameinfos := [], payloads := [], m_width := 0, m_height := 0,
        m_next_frame_time := 0, m_warn_too_small := true, m_warn_too_large := true,
        m_ring_buffer_size := 4, m_max_bytes := 1073741824, m_target_fps := 0, m_flags := 0,
        m_has_xfixes := false }
      { width := 100, height := 100, now := 0, nowAfterSleep := 0,
        pixels := fun _ => 0, translate := none, xcim := none }).state.header.write_pos = 1 := by
  constructor
  · exact ((C2_ring_fullness _ _ (by norm_num)).1 (by norm_num) (by norm_num [grow_align16])
      (by norm_num [framesReady, positive_mod])).1
  · have h := (C2_ring_fullness
      { header := { ring_buffer_size := 4, max_bytes := 1073741824, target_fps := 0, flags := 0,
                    current_width := 0, current_height := 0, frame_counter := 0,
                    read_pos := 0, write_pos := 0 },
        frameinfos := [], payloads := [], m_width := 0, m_height := 0,
        m_next_frame_time := 0, m_warn_too_small := true, m_warn_too_large := true,
        m_ring_buffer_size := 4, m_max_bytes := 1073741824, m_target_fps := 0, m_flags := 0,
        m_has_xfixes := false }
      { width := 100, height := 100, now := 0, nowAfterSleep := 0,
        pixels := fun _ => 0, translate := none, xcim := none } (by norm_num)).2.1 (by rfl)
    simpa using h.1

/-! ## Claim C3 -/

/-- Counterexample to claim C3 as stated: a concrete `GrabFrame` call
with `target_fps = 30`, `LIMIT_FPS` clear, `now = 500000` earlier than
`next_frame_time = 1000000`.  The frame is dropped as early, and
`next_frame_time` is left at `1000000`, not advanced to
`max(next_frame_time + delay, now) = 1033333`. -/
theorem C3_counterexample :
    (grabFrame
      { header := { ring_buffer_size := 4, max_bytes := 1073741824, target_fps := 30, flags := 0,
                    current_width := 0, current_height := 0, frame_counter := 0,
                    read_pos := 0, write_pos := 0 },
        frameinfos := [], payloads := [], m_width := 0, m_height := 0,
        m_next_frame_time := 1000000, m_warn_too_small := true, m_warn_too_large := true,
        m_ring_buffer_size := 4, m_max_bytes := 1073741824, m_target_fps := 30, m_flags := 0,
        m_has_xfixes := false }
      { width := 100, height := 100, now := 500000, nowAfterSleep := 500000,
        pixels := fun _ => 0, translate := none, xcim := none }).result = .pacingDrop ∧
    (grabFrame
      { header := { ring_buffer_size := 4, max_bytes := 1073741824, target_fps := 30, flags := 0,
                    current_width := 0, current_height := 0, frame_counter := 0,
                    read_pos := 0, write_pos := 0 },
        frameinfos := [], payloads := [], m_width := 0, m_height := 0,
        m_next_frame_time := 1000000, m_warn_too_small := true, m_warn_too_large := true,
        m_ring_buffer_size := 4, m_max_bytes := 1073741824, m_target_fps := 30, m_flags := 0,
        m_has_xfixes := false }
      { width := 100, height := 100, now := 500000, nowAfterSleep := 500000,
        pixels := fun _ => 0, translate := none, xcim := none }).state.m_next_frame_time
      = 1000000 ∧
    (1000000 : Int) ≠ max (1000000 + 1000000 / 30) 500000 := by
  refine ⟨by rfl, by rfl, by decide⟩

/-- Claim C3, amended: with `target_fps > 0`, the delay is
`1000000 / target_fps` µs; with `LIMIT_FPS` set an early call sleeps
for `next_frame_time - now` and then publishes, advancing
`next_frame_time` to `max(next_frame_time + delay, now)` where `now`
is the post-sleep clock; with `LIMIT_FPS` clear an early call drops
the frame and leaves `next_frame_time` unchanged (this is where the
original claim fails); in the remaining cases the frame is published
and `next_frame_time` advances to `max(next_frame_time + delay, now)`. -/
theorem C3_pacing_amended (s : GrabberState) (inp : GrabInput)
    (hns : ¬ (inp.width < 2 ∨ inp.height < 2))
    (hnl : ¬ (inp.width > 10000 ∨ inp.height > 10000 ∨
              grow_align16 (inp.width * 4) * inp.height > s.m_max_bytes))
    (hfull : ¬ (s.m_ring_buffer_size : Int) ≤
        framesReady s.header.write_pos s.header.read_pos s.m_ring_buffer_size)
    (hfps : 0 < s.m_target_fps) :
    (s.m_flags &&& GLINJECT_FLAG_LIMIT_FPS ≠ 0 → inp.now < s.m_next_frame_time →
       (grabFrame s inp).result = .published ∧
       GrabEvent.sleepFor (s.m_next_frame_time - inp.now) ∈ (grabFrame s inp).events ∧
       (grabFrame s inp).state.m_next_frame_time
          = max (s.m_next_frame_time + 1000000 / (s.m_target_fps : Int)) inp.nowAfterSleep) ∧
    (s.m_flags &&& GLINJECT_FLAG_LIMIT_FPS ≠ 0 → ¬ inp.now < s.m_next_frame_time →
       (grabFrame s inp).result = .published ∧
       (grabFrame s inp).state.m_next_frame_time
          = max (s.m_next_frame_time + 1000000 / (s.m_target_fps : Int)) inp.now) ∧
    (s.m_flags &&& GLINJECT_FLAG_LIMIT_FPS = 0 → inp.now < s.m_next_frame_time →
       (grabFrame s inp).result = .pacingDrop ∧
       (grabFrame s inp).state.m_next_frame_time = s.m_next_frame_time ∧
       (grabFrame s inp).state.header.write_pos = s.header.write_pos) ∧
    (s.m_flags &&& GLINJECT_FLAG_LIMIT_FPS = 0 → ¬ inp.now < s.m_next_frame_time →
       (grabFrame s inp).result = .published ∧
       (grabFrame s inp).state.m_next_frame_time
          = max (s.m_next_frame_time + 1000000 / (s.m_target_fps : Int)) inp.now) := by
  refine ⟨?_, ?_, ?_, ?_⟩
  · intro hlim hearly
    rw [grabFrame_publish_sleep_eq s inp hns hnl hfull hfps hlim hearly]
    refine ⟨(publishFrame_spec _ inp s.header.write_pos _ _ _).1, ?_, ?_⟩
    · rw [(publishFrame_spec _ inp s.header.write_pos _ _ _).2.2.2.2.2.2]
      simp
    · simpa using (publishFrame_spec _ inp s.header.write_pos _ _ _).2.2.2.1
  · intro hlim hlate
    rw [grabFrame_publish_limit_late_eq s inp hns hnl hfull hfps hlim hlate]
    refine ⟨(publishFrame_spec _ inp s.header.write_pos _ _ _).1, ?_⟩
    simpa using (publishFrame_spec _ inp s.header.write_pos _ _ _).2.2.2.1
  · intro hlim hearly
    have h := grabFrame_pacing_drop_spec s inp hns hnl hfull hfps hlim hearly
    exact ⟨h.1, h.2.2.2.2.2.1, h.2.1⟩
  · intro hlim hlate
    rw [grabFrame_publish_late_eq s inp hns hnl hfull hfps hlim hlate]
    refine ⟨(publishFrame_spec _ inp s.header.write_pos _ _ _).1, ?_⟩
    simpa using (publishFrame_spec _ inp s.header.write_pos _ _ _).2.2.2.1

/-- Witness for `C3_pacing_amended`: concrete early drop without
limiting (cursor untouched at 1000000) and concrete late publish
(cursor advanced to 1033333). -/
theorem C3_pacing_amended_witness :
    (grabFrame
      { header := { ring_buffer_size := 4, max_bytes := 1073741824, target_fps := 30, flags := 0,
                    current_width := 0, current_height := 0, frame_counter := 0,
                    read_pos := 0, write_pos := 0 },
        frameinfos := [], payloads := [], m_width := 0, m_height := 0,
        m_next_frame_time := 1000000, m_warn_too_small := true, m_warn_too_large := true,
        m_ring_buffer_size := 4, m_max_bytes := 1073741824, m_target_fps := 30, m_flags := 0,
        m_has_xfixes := false }
      { width := 100, height := 100, now := 1000000, nowAfterSleep := 1000000,
        pixels := fun _ => 0, translate := none, xcim := none }).result = .published ∧
    (grabFrame
      { header := { ring_buffer_size := 4, max_bytes := 1073741824, target_fps := 30, flags := 0,
                    current_width := 0, current_height := 0, frame_counter := 0,
                    read_pos := 0, write_pos := 0 },
        frameinfos := [], payloads := [], m_width := 0, m_height := 0,
        m_next_frame_time := 1000000, m_warn_too_small := true, m_warn_too_large := true,
        m_ring_buffer_size := 4, m_max_bytes := 1073741824, m_target_fps := 30, m_flags := 0,
        m_has_xfixes := false }
      { width := 100, height := 100, now := 1000000, nowAfterSleep := 1000000,
        pixels := fun _ => 0, translate := none, xcim := none }).state.m_next_frame_time
      = 1033333 := by
  have h := (C3_pacing_amended
    { header := { ring_buffer_size := 4, max_bytes := 1073741824, target_fps := 30, flags := 0,
                  current_width := 0, current_height := 0, frame_counter := 0,
                  read_pos := 0, write_pos := 0 },
      frameinfos := [], payloads := [], m_width := 0, m_height := 0,
      m_next_frame_time := 1000000, m_warn_too_small := true, m_warn_too_large := true,
      m_ring_buffer_size := 4, m_max_bytes := 1073741824, m_target_fps := 30, m_flags := 0,
      m_has_xfixes := false }
    { width := 100, height := 100, now := 1000000, nowAfterSleep := 1000000,
      pixels := fun _ => 0, translate := none, xcim := none }
    (by norm_num) (by norm_num [grow_align16]) (by norm_num [framesReady, positive_mod])
    (by norm_num)).2.2.2 (by rfl) (by norm_num)
  refine ⟨h.1, ?_⟩
  rw [h.2]
  decide

/-! ## Claim C4 -/

lemma grabFrame_warn_bound (s : GrabberState) (inp : GrabInput) :
    (grabFrame s inp).events.countP isWarnTooSmall
        + ((grabFrame s inp).state.m_warn_too_small).toNat
      ≤ (s.m_warn_too_small).toNat ∧
    (grabFrame s inp).events.countP isWarnTooLarge
        + ((grabFrame s inp).state.m_warn_too_large).toNat
      ≤ (s.m_warn_too_large).toNat := by
  by_cases hns : inp.width < 2 ∨ inp.height < 2
  · have h := grabFrame_small_spec s inp hns
    rw [h.2.2.2.2.2.2.2.2, h.2.2.1.symm] at *
    rw [h.2.2.2.2.2.2.1, h.2.2.2.2.2.2.2.1]
    by_cases hw : s.m_warn_too_small <;>
      simp [hw, isWarnTooSmall, isWarnTooLarge, Bool.toNat]
  by_cases hnl : inp.width > 10000 ∨ inp.height > 10000 ∨
      grow_align16 (inp.width * 4) * inp.height > s.m_max_bytes
  · have h := grabFrame_large_spec s inp hns hnl
    rw [h.2.2.2.2.2.2.2.2, h.2.2.2.2.2.2.1, h.2.2.2.2.2.2.2.1]
    by_cases hw : s.m_warn_too_large <;>
      simp [hw, isWarnTooSmall, isWarnTooLarge, Bool.toNat]
  by_cases hfull : (s.m_ring_buffer_size : Int) ≤
      framesReady s.header.write_pos s.header.read_pos s.m_ring_buffer_size
  · have h := grabFrame_full_spec s inp hns hnl hfull
    rw [h.2.2.2.2.2.2.2.2, h.2.2.2.2.2.2.1, h.2.2.2.2.2.2.2.1]
    simp [isWarnTooSmall, isWarnTooLarge]
  by_cases hfps : 0 < s.m_target_fps
  · by_cases hlim : s.m_flags &&& GLINJECT_FLAG_LIMIT_FPS = 0
    · by_cases hearly : inp.now < s.m_next_frame_time
      · have h := grabFrame_pacing_drop_spec s inp hns hnl hfull hfps hlim hearly
        rw [h.2.2.2.2.2.2.2.2, h.2.2.2.2.2.2.1, h.2.2.2.2.2.2.2.1]
        simp [isWarnTooSmall, isWarnTooLarge]
      · rw [grabFrame_publish_late_eq s inp hns hnl hfull hfps hlim hearly]
        simp [publishFrame_events_eq, publishFrame_warnSmall_eq, publishFrame_warnLarge_eq,
          isWarnTooSmall, isWarnTooLarge]
    · by_cases hearly : inp.now < s.m_next_frame_time
      · rw [grabFrame_publish_sleep_eq s inp hns hnl hfull hfps hlim hearly]
        simp [publishFrame_events_eq, publishFrame_warnSmall_eq, publishFrame_warnLarge_eq,
          isWarnTooSmall, isWarnTooLarge]
      · rw [grabFrame_publish_limit_late_eq s inp hns hnl hfull hfps hlim hearly]
        simp [publishFrame_events_eq, publishFrame_warnSmall_eq, publishFrame_warnLarge_eq,
          isWarnTooSmall, isWarnTooLarge]
  · rw [grabFrame_publish_nofps_eq s inp hns hnl hfull hfps]
    simp [publishFrame_events_eq, publishFrame_warnSmall_eq, publishFrame_warnLarge_eq,
      isWarnTooSmall, isWarnTooLarge]

lemma runGrabs_warn_bound (s : GrabberState) (inps : List GrabInput) :
    eventCount isWarnTooSmall (runGrabs s inps).2
        + ((runGrabs s inps).1.m_warn_too_small).toNat
      ≤ (s.m_warn_too_small).toNat ∧
    eventCount isWarnTooLarge (runGrabs s inps).2
        + ((runGrabs s inps).1.m_warn_too_large).toNat
      ≤ (s.m_warn_too_large).toNat := by
  induction inps generalizing s with
  | nil => simp [runGrabs, eventCount]
  | cons inp rest ih =>
    have hcall := grabFrame_warn_bound s inp
    have hrest := ih (grabFrame s inp).state
    simp only [runGrabs, eventCount, List.map_cons, List.sum_cons] at *
    omega

/-- Claim C4: frames with `width < 2` or `height < 2` are rejected via
the too-small path, frames whose `stride * height` exceeds `max_bytes`
via the too-large path, each without publishing; each rejection kind
warns exactly when its one-shot flag is still armed, disarms it, and
over any whole lifetime starting with both flags armed (as the
constructor leaves them) each kind warns at most once. -/
theorem C4_one_shot_warnings :
    (∀ (s : GrabberState) (inp : GrabInput), (inp.width < 2 ∨ inp.height < 2) →
       (grabFrame s inp).result = .tooSmall ∧
       (grabFrame s inp).state.header.write_pos = s.header.write_pos ∧
       (grabFrame s inp).state.frameinfos = s.frameinfos ∧
       (grabFrame s inp).state.payloads = s.payloads ∧
       ((grabFrame s inp).events.countP isWarnTooSmall
          = if s.m_warn_too_small then 1 else 0) ∧
       (grabFrame s inp).state.m_warn_too_small = false) ∧
    (∀ (s : GrabberState) (inp : GrabInput),
       ¬ (inp.width < 2 ∨ inp.height < 2) →
       grow_align16 (inp.width * 4) * inp.height > s.m_max_bytes →
       (grabFrame s inp).result = .tooLarge ∧
       (grabFrame s inp).state.header.write_pos = s.header.write_pos ∧
       (grabFrame s inp).state.frameinfos = s.frameinfos ∧
       (grabFrame s inp).state.payloads = s.payloads ∧
       ((grabFrame s inp).events.countP isWarnTooLarge
          = if s.m_warn_too_large then 1 else 0) ∧
       (grabFrame s inp).state.m_warn_too_large = false) ∧
    (∀ (s : GrabberState) (inps : List GrabInput),
       s.m_warn_too_small = true → s.m_warn_too_large = true →
       eventCount isWarnTooSmall (runGrabs s inps).2 ≤ 1 ∧
       eventCount isWarnTooLarge (runGrabs s inps).2 ≤ 1) := by
  refine ⟨?_, ?_, ?_⟩
  · intro s inp h
    have hs := grabFrame_small_spec s inp h
    refine ⟨hs.1, hs.2.1, hs.2.2.2.1, hs.2.2.2.2.1, ?_, hs.2.2.2.2.2.2.1⟩
    rw [hs.2.2.2.2.2.2.2.2]
    by_cases hw : s.m_warn_too_small <;> simp [hw, isWarnTooSmall]
  · intro s inp hns h
    have hl := grabFrame_large_spec s inp hns (Or.inr (Or.inr h))
    refine ⟨hl.1, hl.2.1, hl.2.2.2.1, hl.2.2.2.2.1, ?_, hl.2.2.2.2.2.2.2.1⟩
    rw [hl.2.2.2.2.2.2.2.2]
    by_cases hw : s.m_warn_too_large <;> simp [hw, isWarnTooLarge]
  · intro s inps hsm hlg
    have h := runGrabs_warn_bound s inps
    rw [hsm, hlg] at h
    simp only [Bool.toNat_true] at h
    constructor <;> omega

/-- Witness for `C4_one_shot_warnings`: a 1x1 frame is rejected as too
small with one warning from an armed grabber, an oversized frame is
rejected as too large, and over a concrete two-call lifetime each kind
warns at most once. -/
theorem C4_one_shot_warnings_witness :
    (grabFrame
      { header := { ring_buffer_size := 4, max_bytes := 1000, target_fps := 0, flags := 0,
                    current_width := 0, current_height := 0, frame_counter := 0,
                    read_pos := 0, write_pos := 0 },
        frameinfos := [], payloads := [], m_width := 0, m_height := 0,
        m_next_frame_time := 0, m_warn_too_small := true, m_warn_too_large := true,
        m_ring_buffer_size := 4, m_max_bytes := 1000, m_target_fps := 0, m_flags := 0,
        m_has_xfixes := false }
      { width := 1, height := 1, now := 0, nowAfterSleep := 0,
        pixels := fun _ => 0, translate := none, xcim := none }).result = .tooSmall ∧
    (grabFrame
      { header := { ring_buffer_size := 4, max_bytes := 1000, target_fps := 0, flags := 0,
                    current_width := 0, current_height := 0, frame_counter := 0,
                    read_pos := 0, write_pos := 0 },
        frameinfos := [], payloads := [], m_width := 0, m_height := 0,
        m_next_frame_time := 0, m_warn_too_small := true, m_warn_too_large := true,
        m_ring_buffer_size := 4, m_max_bytes := 1000, m_target_fps := 0, m_flags := 0,
        m_has_xfixes := false }
      { width := 100, height := 100, now := 0, nowAfterSleep := 0,
        pixels := fun _ => 0, translate := none, xcim := none }).result = .tooLarge ∧
    eventCount isWarnTooSmall (runGrabs
      { header := { ring_buffer_size := 4, max_bytes := 1000, target_fps := 0, flags := 0,
                    current_width := 0, current_height := 0, frame_counter := 0,
                    read_pos := 0, write_pos := 0 },
        frameinfos := [], payloads := [], m_width := 0, m_height := 0,
        m_next_frame_time := 0, m_warn_too_small := true, m_warn_too_large := true,
        m_ring_buffer_size := 4, m_max_bytes := 1000, m_target_fps := 0, m_flags := 0,
        m_has_xfixes := false }
      [{ width := 1, height := 1, now := 0, nowAfterSleep := 0,
         pixels := fun _ => 0, translate := none, xcim := none },
       { width := 1, height := 1, now := 0, nowAfterSleep := 0,
         pixels := fun _ => 0, translate := none, xcim := none }]).2 ≤ 1 := by
  refine ⟨?_, ?_, ?_⟩
  · exact ((C4_one_shot_warnings).1 _ _ (by norm_num)).1
  · exact ((C4_one_shot_warnings).2.1 _ _ (by norm_num) (by norm_num [grow_align16])).1
  · exact ((C4_one_shot_warnings).2.2 _ _ (by rfl) (by rfl)).1

/-! ## Claim C10 -/

/-- Counterexample to claim C10 as stated: a 10001x1 frame (width over
10000, `align16(width*4)*height = 40016` within `max_bytes`) is
rejected via the too-small path (height < 2), not the too-large path,
and no too-large warning is emitted. -/
theorem C10_counterexample :
    (grabFrame
      { header := { ring_buffer_size := 4, max_bytes := 1073741824, target_fps := 0, flags := 0,
                    current_width := 0, current_height := 0, frame_counter := 0,
                    read_pos := 0, write_pos := 0 },
        frameinfos := [], payloads := [], m_width := 0, m_height := 0,
        m_next_frame_time := 0, m_warn_too_small := true, m_warn_too_large := true,
        m_ring_buffer_size := 4, m_max_bytes := 1073741824, m_target_fps := 0, m_flags := 0,
        m_has_xfixes := false }
      { width := 10001, height := 1, now := 0, nowAfterSleep := 0,
        pixels := fun _ => 0, translate := none, xcim := none }).result = .tooSmall ∧
    (grabFrame
      { header := { ring_buffer_size := 4, max_bytes := 1073741824, target_fps := 0, flags := 0,
                    current_width := 0, current_height := 0, frame_counter := 0,
                    read_pos := 0, write_pos := 0 },
        frameinfos := [], payloads := [], m_width := 0, m_height := 0,
        m_next_frame_time := 0, m_warn_too_small := true, m_warn_too_large := true,
        m_ring_buffer_size := 4, m_max_bytes := 1073741824, m_target_fps := 0, m_flags := 0,
        m_has_xfixes := false }
      { width := 10001, height := 1, now := 0, nowAfterSleep := 0,
        pixels := fun _ => 0, translate := none, xcim := none }).result ≠ .tooLarge ∧
    (grabFrame
      { header := { ring_buffer_size := 4, max_bytes := 1073741824, target_fps := 0, flags := 0,
                    current_width := 0, current_height := 0, frame_counter := 0,
                    read_pos := 0, write_pos := 0 },
        frameinfos := [], payloads := [], m_width := 0, m_height := 0,
        m_next_frame_time := 0, m_warn_too_small := true, m_warn_too_large := true,
        m_ring_buffer_size := 4, m_max_bytes := 1073741824, m_target_fps := 0, m_flags := 0,
        m_has_xfixes := false }
      { width := 10001, height := 1, now := 0, nowAfterSleep := 0,
        pixels := fun _ => 0, translate := none, xcim := none }).events.countP isWarnTooLarge
      = 0 ∧
    10000 < 10001 ∧ grow_align16 (10001 * 4) * 1 ≤ 1073741824 := by
  refine ⟨by rfl, by decide, by rfl, by norm_num, by norm_num [grow_align16]⟩

/-- Claim C10, amended: a frame with width or height over 10000 whose
both dimensions are at least 2 is rejected via the too-large path
(one-shot warning, no publish) even when `align16(width*4)*height`
fits in `max_bytes` (a frame over 10000 with a dimension below 2 is
rejected via the too-small path instead); consequently no frame wider
or taller than 10000 is ever published into a slot. -/
theorem C10_oversize_amended :
    (∀ (s : GrabberState) (inp : GrabInput),
       (10000 < inp.width ∨ 10000 < inp.height) → 2 ≤ inp.width → 2 ≤ inp.height →
       (grabFrame s inp).result = .tooLarge ∧
       (grabFrame s inp).state.header.write_pos = s.header.write_pos ∧
       (grabFrame s inp).state.frameinfos = s.frameinfos ∧
       (grabFrame s inp).state.payloads = s.payloads ∧
       ((grabFrame s inp).events.countP isWarnTooLarge
          = if s.m_warn_too_large then 1 else 0)) ∧
    (∀ (s : GrabberState) (inp : GrabInput),
       (grabFrame s inp).result = .published →
       inp.width ≤ 10000 ∧ inp.height ≤ 10000) := by
  constructor
  · intro s inp hbig hw2 hh2
    have hns : ¬ (inp.width < 2 ∨ inp.height < 2) := by omega
    have hl := grabFrame_large_spec s inp hns (by omega)
    refine ⟨hl.1, hl.2.1, hl.2.2.2.1, hl.2.2.2.2.1, ?_⟩
    rw [hl.2.2.2.2.2.2.2.2]
    by_cases hwl : s.m_warn_too_large <;> simp [hwl, isWarnTooLarge]
  · intro s inp hpub
    have h := (grabFrame_publish_inv s inp hpub).2.2.2.2.1
    push_neg at h
    exact ⟨by omega, by omega⟩

/-- Witness for `C10_oversize_amended`: a 10001x2 frame that fits in
`max_bytes` is nevertheless rejected as too large with one warning. -/
theorem C10_oversize_amended_witness :
    (grabFrame
      { header := { ring_buffer_size := 4, max_bytes := 1073741824, target_fps := 0, flags := 0,
                    current_width := 0, current_height := 0, frame_counter := 0,
                    read_pos := 0, write_pos := 0 },
        frameinfos := [], payloads := [], m_width := 0, m_height := 0,
        m_next_frame_time := 0, m_warn_too_small := true, m_warn_too_large := true,
        m_ring_buffer_size := 4, m_max_bytes := 1073741824, m_target_fps := 0, m_flags := 0,
        m_has_xfixes := false }
      { width := 10001, height := 2, now := 0, nowAfterSleep := 0,
        pixels := fun _ => 0, translate := none, xcim := none }).result = .tooLarge ∧
    (grabFrame
      { header := { ring_buffer_size := 4, max_bytes := 1073741824, target_fps := 0, flags := 0,
                    current_width := 0, current_height := 0, frame_counter := 0,
                    read_pos := 0, write_pos := 0 },
        frameinfos := [], payloads := [], m_width := 0, m_height := 0,
        m_next_frame_time := 0, m_warn_too_small := true, m_warn_too_large := true,
        m_ring_buffer_size := 4, m_max_bytes := 1073741824, m_target_fps := 0, m_flags := 0,
        m_has_xfixes := false }
      { width := 10001, height := 2, now := 0, nowAfterSleep := 0,
        pixels := fun _ => 0, translate := none, xcim := none }).events.countP isWarnTooLarge
      = 1 := by
  have h := (C10_oversize_amended).1
    { header := { ring_buffer_size := 4, max_bytes := 1073741824, target_fps := 0, flags := 0,
                  current_width := 0, current_height := 0, frame_counter := 0,
                  read_pos := 0, write_pos := 0 },
      frameinfos := [], payloads := [], m_width := 0, m_height := 0,
      m_next_frame_time := 0, m_warn_too_small := true, m_warn_too_large := true,
      m_ring_buffer_size := 4, m_max_bytes := 1073741824, m_target_fps := 0, m_flags := 0,
      m_has_xfixes := false }
    { width := 10001, height := 2, now := 0, nowAfterSleep := 0,
      pixels := fun _ => 0, translate := none, xcim := none }
    (by norm_num) (by norm_num) (by norm_num)
  refine ⟨h.1, ?_⟩
  rw [h.2.2.2.2]
  rfl

/-! ## Claim C8 -/

lemma attachFrames_none_iff (w : AttachWorld) :
    ∀ (count start : Nat),
      (attachFrames w start count = none ↔
        ∃ i, i < count ∧
          (w.frame_attach_ok (start + i) = false ∨ w.frame_size (start + i) ≠ w.max_bytes)) := by
  intro count
  induction count with
  | zero =>
    intro start
    simp [attachFrames]
  | succ n ih =>
    intro start
    simp only [attachFrames]
    by_cases ha : w.frame_attach_ok start
    · rw [if_neg (by simp [ha])]
      by_cases hs : w.frame_size start = w.max_bytes
      · rw [if_neg (by simp [hs])]
        cases hrec : attachFrames w (start + 1) n with
        | some rest =>
          simp only [reduceCtorEq, false_iff]
          rintro ⟨i, hi, hfail⟩
          match i, hfail with
          | 0, hfail =>
            rcases hfail with h | h
            · rw [Nat.add_zero] at h
              rw [h] at ha
              cases ha
            · rw [Nat.add_zero] at h
              exact h hs
          | j + 1, hfail =>
            have : attachFrames w (start + 1) n = none := by
              rw [ih (start + 1)]
              refine ⟨j, by omega, ?_⟩
              have harith : start + 1 + j = start + (j + 1) := by omega
              rw [harith]
              exact hfail
            rw [this] at hrec
            cases hrec
        | none =>
          simp only [true_iff]
          rcases (ih (start + 1)).mp hrec with ⟨j, hj, hfail⟩
          refine ⟨j + 1, by omega, ?_⟩
          have harith : start + (j + 1) = start + 1 + j := by omega
          rw [harith]
          exact hfail
      · rw [if_pos (by simp [hs])]
        simp only [true_iff]
        exact ⟨0, by omega, Or.inr (by simpa using hs)⟩
    · rw [if_pos (by simp [ha])]
      simp only [true_iff]
      exact ⟨0, by omega, Or.inl (by simpa using ha)⟩

lemma attachFrames_length (w : AttachWorld) :
    ∀ (count start : Nat) (l : List Int),
      attachFrames w start count = some l → l.length = count := by
  intro count
  induction count with
  | zero =>
    intro start l h
    simp [attachFrames] at h
    simp [← h]
  | succ n ih =>
    intro start l h
    simp only [attachFrames] at h
    by_cases ha : w.frame_attach_ok start
    · rw [if_neg (by simp [ha])] at h
      by_cases hs : w.frame_size start = w.max_bytes
      · rw [if_neg (by simp [hs])] at h
        cases hrec : attachFrames w (start + 1) n with
        | some rest =>
          rw [hrec] at h
          simp only [Option.some.injEq] at h
          rw [← h]
          simp [ih (start + 1) rest hrec]
        | none =>
          rw [hrec] at h
          cases h
      · rw [if_pos (by simp [hs])] at h
        cases h
    · rw [if_pos (by simp [ha])] at h
      cases h

/-- Concrete attach world for claim C8: the environment id is present,
every size matches and every per-slot attach succeeds, but the `shmat`
call on the main segment itself fails. -/
def attachWorldCE : AttachWorld :=
  { shm_id := some 5
    main_attach_ok := false
    main_size := 192
    ring_buffer_size := 4
    max_bytes := 1024
    frame_shm_id := fun i => (i : Int)
    frame_attach_ok := fun _ => true
    frame_size := fun _ => 1024 }

/-- Counterexample to claim C8 as stated: with header size 64 and
descriptor size 32, this world satisfies every condition the claim
lists (id present, ring size in [1,1000], `max_bytes ≤ 1 GiB`, main
size equal to `64 + 32*4`, every slot attaching with the right size),
yet the constructor exits fatally because attaching the main segment
itself fails - a condition the claim omits. -/
theorem C8_counterexample :
    grabberAttach 64 32 attachWorldCE = .fatal ∧
    attachWorldCE.shm_id ≠ none ∧
    1 ≤ attachWorldCE.ring_buffer_size ∧ attachWorldCE.ring_buffer_size ≤ 1000 ∧
    attachWorldCE.max_bytes ≤ 1024 * 1024 * 1024 ∧
    attachWorldCE.main_size = 64 + 32 * attachWorldCE.ring_buffer_size ∧
    (∀ i, i < attachWorldCE.ring_buffer_size →
      attachWorldCE.frame_attach_ok i = true ∧
      attachWorldCE.frame_size i = attachWorldCE.max_bytes) := by
  refine ⟨by rfl, by simp [attachWorldCE], by norm_num [attachWorldCE],
    by norm_num [attachWorldCE], by norm_num [attachWorldCE], by norm_num [attachWorldCE],
    fun i _ => ⟨rfl, rfl⟩⟩

/-- Claim C8, amended: the constructor exits fatally if and only if
the environment id is missing, the main segment fails to attach, the
ring size is outside [1,1000], `max_bytes` exceeds 1 GiB, the main
segment size differs from `sizeof(Header) +
ring_buffer_size*sizeof(FrameDescriptor)`, or some payload segment
fails to attach or has size other than `max_bytes`; on success all
`ring_buffer_size` payload segments remain attached. -/
theorem C8_attach_amended (szH szF : Nat) (w : AttachWorld) :
    (grabberAttach szH szF w = .fatal ↔
      (w.shm_id = none ∨ w.main_attach_ok = false ∨
       w.ring_buffer_size = 0 ∨ 1000 < w.ring_buffer_size ∨
       1024 * 1024 * 1024 < w.max_bytes ∨
       w.main_size ≠ szH + szF * w.ring_buffer_size ∨
       ∃ i, i < w.ring_buffer_size ∧
         (w.frame_attach_ok i = false ∨ w.frame_size i ≠ w.max_bytes))) ∧
    (∀ l, grabberAttach szH szF w = .ok l → l.length = w.ring_buffer_size) := by
  constructor
  · constructor
    · intro hf
      unfold grabberAttach at hf
      split_ifs at hf with h1 h2 h3 h4 h5 h6
      · exact Or.inl h1
      · exact Or.inr (Or.inl (by revert h2; cases w.main_attach_ok <;> simp))
      · refine Or.inr (Or.inr (Or.inr (Or.inr (Or.inr (Or.inl ?_)))))
        omega
      · rcases h4 with h | h
        · exact Or.inr (Or.inr (Or.inl h))
        · exact Or.inr (Or.inr (Or.inr (Or.inl h)))
      · exact Or.inr (Or.inr (Or.inr (Or.inr (Or.inl h5))))
      · exact Or.inr (Or.inr (Or.inr (Or.inr (Or.inr (Or.inl h6)))))
      · cases hm : attachFrames w 0 w.ring_buffer_size with
        | some fr => rw [hm] at hf; cases hf
        | none =>
          rcases (attachFrames_none_iff w w.ring_buffer_size 0).mp hm with ⟨i, hi, hfail⟩
          refine Or.inr (Or.inr (Or.inr (Or.inr (Or.inr (Or.inr ⟨i, hi, ?_⟩)))))
          simpa using hfail
    · intro hr
      unfold grabberAttach
      split_ifs with h1 h2 h3 h4 h5 h6
      · rfl
      · rfl
      · rfl
      · rfl
      · rfl
      · rfl
      · have hma : w.main_attach_ok = true := by
          revert h2; cases w.main_attach_ok <;> simp
        have hnone : attachFrames w 0 w.ring_buffer_size = none := by
          rw [attachFrames_none_iff w w.ring_buffer_size 0]
          rcases hr with h | h | h | h | h | h | ⟨i, hi, hfail⟩
          · exact absurd h h1
          · rw [hma] at h; cases h
          · omega
          · omega
          · omega
          · exact absurd h h6
          · exact ⟨i, hi, by simpa using hfail⟩
        rw [hnone]
  · intro l hok
    unfold grabberAttach at hok
    split_ifs at hok
    · cases hm : attachFrames w 0 w.ring_buffer_size with
      | some fr =>
        rw [hm] at hok
        simp only [AttachResult.ok.injEq] at hok
        rw [← hok]
        exact attachFrames_length w w.ring_buffer_size 0 fr hm
      | none => rw [hm] at hok; cases hok

/-- Witness for `C8_attach_amended`: a fully well-formed world with two
slots attaches successfully and keeps both payload segments. -/
theorem C8_attach_amended_witness :
    grabberAttach 64 32
      { shm_id := some 7
        main_attach_ok := true
        main_size := 128
        ring_buffer_size := 2
        max_bytes := 1024
        frame_shm_id := fun i => (i : Int)
        frame_attach_ok := fun _ => true
        frame_size := fun _ => 1024 } = .ok [0, 1] ∧
    ([(0 : Int), 1].length = 2 ∧ ¬ grabberAttach 64 32
      { shm_id := some 7
        main_attach_ok := true
        main_size := 128
        ring_buffer_size := 2
        max_bytes := 1024
        frame_shm_id := fun i => (i : Int)
        frame_attach_ok := fun _ => true
        frame_size := fun _ => 1024 } = .fatal) := by
  have hok : grabberAttach 64 32
      { shm_id := some 7
        main_attach_ok := true
        main_size := 128
        ring_buffer_size := 2
        max_bytes := 1024
        frame_shm_id := fun i => (i : Int)
        frame_attach_ok := fun _ => true
        frame_size := fun _ => 1024 } = .ok [0, 1] := by rfl
  refine ⟨hok, (C8_attach_amended 64 32 _).2 [0, 1] hok, ?_⟩
  intro hf
  rcases (C8_attach_amended 64 32 _).1.mp hf with h | h | h | h | h | h | ⟨i, hi, hfail⟩
  · cases h
  · cases h
  · cases h
  · exact absurd h (by norm_num)
  · exact absurd h (by norm_num)
  · exact absurd h (by norm_num)
  · rcases hfail with h | h
    · cases h
    · exact absurd rfl h

/-! ## Claim C1 -/

lemma get?_zip {α β : Type} (l1 : List α) :
    ∀ (l2 : List β) (k : Nat),
      (l1.zip l2).get? k =
        match l1.get? k, l2.get? k with
        | some a, some b => some (a, b)
        | _, _ => none := by
  induction l1 with
  | nil => intro l2 k; cases l2 <;> cases k <;> simp
  | cons a l1 ih =>
    intro l2 k
    cases l2 with
    | nil => cases k <;> simp
    | cons b l2 =>
      cases k with
      | zero => simp
      | succ k2 => simpa using ih l2 k2

lemma findOldestAux_none_iff (ss : List (AVStreamM × StreamDataM)) :
    ∀ (i : Nat) (acc : Option (Nat × Rat)),
      findOldestAux i acc ss = none ↔
        acc = none ∧ ∀ p ∈ ss, streamEligible p.2 = false := by
  induction ss with
  | nil => intro i acc; simp [findOldestAux]
  | cons p rest ih =>
    intro i acc
    simp only [findOldestAux]
    by_cases helig : streamEligible p.2
    · rw [if_pos helig]
      cases acc with
      | none =>
        rw [ih]
        simp [helig]
      | some a =>
        rw [ih]
        rcases a with ⟨j0, best⟩
        by_cases hcmp : streamKey p.1 < best <;> simp [hcmp]
    · rw [if_neg helig]
      rw [ih]
      simp only [List.mem_cons]
      constructor
      · rintro ⟨hacc, hall⟩
        refine ⟨hacc, ?_⟩
        rintro p2 (rfl | hmem)
        · simpa using helig
        · exact hall p2 hmem
      · rintro ⟨hacc, hall⟩
        exact ⟨hacc, fun p2 hmem => hall p2 (Or.inr hmem)⟩

lemma findOldestAux_some_spec (ss : List (AVStreamM × StreamDataM)) :
    ∀ (i : Nat) (acc : Option (Nat × Rat)) (j : Nat) (q : Rat),
      findOldestAux i acc ss = some (j, q) →
        (acc = some (j, q) ∧
          ∀ k p, ss.get? k = some p → streamEligible p.2 = true → q ≤ streamKey p.1)
        ∨ (∃ k p, ss.get? k = some p ∧ j = i + k ∧ streamEligible p.2 = true ∧
            q = streamKey p.1 ∧
            (∀ m p2, ss.get? m = some p2 → streamEligible p2.2 = true →
              q ≤ streamKey p2.1 ∧ (m < k → q < streamKey p2.1)) ∧
            (∀ j2 q2, acc = some (j2, q2) → q < q2)) := by
  induction ss with
  | nil =>
    intro i acc j q h
    simp only [findOldestAux] at h
    left
    refine ⟨h, ?_⟩
    intro k p hget
    simp at hget
  | cons p rest ih =>
    intro i acc j q h
    simp only [findOldestAux] at h
    by_cases helig : streamEligible p.2
    · rw [if_pos helig] at h
      cases acc with
      | none =>
        rcases ih (i + 1) (some (i, streamKey p.1)) j q h with ⟨hacc2, hall⟩ | hright
        · -- the head survived the whole scan
          right
          have hji : j = i ∧ q = streamKey p.1 := by
            constructor <;> (injection hacc2 with h1; injection h1 with h2 h3)
            · exact h2.symm
            · exact h3.symm
          refine ⟨0, p, by simp, by omega, helig, hji.2, ?_, by simp⟩
          intro m p2 hget helig2
          cases m with
          | zero =>
            simp only [List.get?_cons_zero, Option.some.injEq] at hget
            rw [← hget]
            exact ⟨le_of_eq hji.2, by omega⟩
          | succ m2 =>
            simp only [List.get?_cons_succ] at hget
            exact ⟨hall m2 p2 hget helig2, by omega⟩
        · rcases hright with ⟨k, p2, hget, hj, helig2, hq, hmin, haccq⟩
          right
          have hlt : q < streamKey p.1 := haccq i (streamKey p.1) rfl
          refine ⟨k + 1, p2, by simpa using hget, by omega, helig2, hq, ?_, by simp⟩
          intro m p3 hget3 helig3
          cases m with
          | zero =>
            simp only [List.get?_cons_zero, Option.some.injEq] at hget3
            rw [← hget3]
            exact ⟨le_of_lt hlt, fun _ => hlt⟩
          | succ m2 =>
            simp only [List.get?_cons_succ] at hget3
            have := hmin m2 p3 hget3 helig3
            exact ⟨this.1, fun hm => this.2 (by omega)⟩
      | some a =>
        rcases a with ⟨j0, best⟩
        have h2 : findOldestAux (i + 1)
            (if streamKey p.1 < best then some (i, streamKey p.1) else some (j0, best)) rest
            = some (j, q) := h
        by_cases hcmp : streamKey p.1 < best
        · rw [if_pos hcmp] at h2
          rcases ih (i + 1) (some (i, streamKey p.1)) j q h2 with ⟨hacc2, hall⟩ | hright
          · right
            have hji : j = i ∧ q = streamKey p.1 := by
              constructor <;> (injection hacc2 with h1; injection h1 with h2 h3)
              · exact h2.symm
              · exact h3.symm
            refine ⟨0, p, by simp, by omega, helig, hji.2, ?_, ?_⟩
            · intro m p2 hget helig2
              cases m with
              | zero =>
                simp only [List.get?_cons_zero, Option.some.injEq] at hget
                rw [← hget]
                exact ⟨le_of_eq hji.2, by omega⟩
              | succ m2 =>
                simp only [List.get?_cons_succ] at hget
                exact ⟨hall m2 p2 hget helig2, by omega⟩
            · rintro j2 q2 heq
              injection heq with h1
              injection h1 with h2 h3
              rw [← h3]
              rw [hji.2]
              exact hcmp
          · rcases hright with ⟨k, p2, hget, hj, helig2, hq, hmin, haccq⟩
            right
            have hlt : q < streamKey p.1 := haccq i (streamKey p.1) rfl
            refine ⟨k + 1, p2, by simpa using hget, by omega, helig2, hq, ?_, ?_⟩
            · intro m p3 hget3 helig3
              cases m with
              | zero =>
                simp only [List.get?_cons_zero, Option.some.injEq] at hget3
                rw [← hget3]
                exact ⟨le_of_lt hlt, fun _ => hlt⟩
              | succ m2 =>
                simp only [List.get?_cons_succ] at hget3
                have := hmin m2 p3 hget3 helig3
                exact ⟨this.1, fun hm => this.2 (by omega)⟩
            · rintro j2 q2 heq
              injection heq with h1
              injection h1 with h2 h3
              rw [← h3]
              exact lt_trans hlt hcmp
        · rw [if_neg hcmp] at h2
          rcases ih (i + 1) (some (j0, best)) j q h2 with ⟨hacc2, hall⟩ | hright
          · left
            have hji : j0 = j ∧ best = q := by
              injection hacc2 with h1
              injection h1 with h2 h3
              exact ⟨h2, h3⟩
            refine ⟨by rw [hji.1, hji.2], ?_⟩
            intro k p2 hget helig2
            cases k with
            | zero =>
              simp only [List.get?_cons_zero, Option.some.injEq] at hget
              rw [← hget]
              rw [← hji.2]
              exact le_of_not_lt hcmp
            | succ k2 =>
              simp only [List.get?_cons_succ] at hget
              exact hall k2 p2 hget helig2
          · rcases hright with ⟨k, p2, hget, hj, helig2, hq, hmin, haccq⟩
            right
            have hlt : q < best := haccq j0 best rfl
            refine ⟨k + 1, p2, by simpa using hget, by omega, helig2, hq, ?_, ?_⟩
            · intro m p3 hget3 helig3
              cases m with
              | zero =>
                simp only [List.get?_cons_zero, Option.some.injEq] at hget3
                rw [← hget3]
                have hqk : q < streamKey p.1 := lt_of_lt_of_le hlt (le_of_not_lt hcmp)
                exact ⟨le_of_lt hqk, fun _ => hqk⟩
              | succ m2 =>
                simp only [List.get?_cons_succ] at hget3
                have := hmin m2 p3 hget3 helig3
                exact ⟨this.1, fun hm => this.2 (by omega)⟩
            · rintro j2 q2 heq
              injection heq with h1
              injection h1 with h2 h3
              rw [← h3]
              exact hlt
    · rw [if_neg helig] at h
      rcases ih (i + 1) acc j q h with ⟨hacc2, hall⟩ | hright
      · left
        refine ⟨hacc2, ?_⟩
        intro k p2 hget helig2
        cases k with
        | zero =>
          simp only [List.get?_cons_zero, Option.some.injEq] at hget
          rw [← hget] at helig2
          rw [helig2] at helig
          exact absurd rfl helig
        | succ k2 =>
          simp only [List.get?_cons_succ] at hget
          exact hall k2 p2 hget helig2
      · rcases hright with ⟨k, p2, hget, hj, helig2, hq, hmin, haccq⟩
        right
        refine ⟨k + 1, p2, by simpa using hget, by omega, helig2, hq, ?_, haccq⟩
        intro m p3 hget3 helig3
        cases m with
        | zero =>
          simp only [List.get?_cons_zero, Option.some.injEq] at hget3
          rw [← hget3] at helig3
          rw [helig3] at helig
          exact absurd rfl helig
        | succ m2 =>
          simp only [List.get?_cons_succ] at hget3
          have := hmin m2 p3 hget3 helig3
          exact ⟨this.1, fun hm => this.2 (by omega)⟩

/-- Claim C1: the worker selects, among the streams that are not done
or have a non-empty queue, the one minimizing the container-reported
pts times the stream time base, with ties broken by the lowest index
(a strictly smaller key is required to displace the current best); when
every stream is done with an empty queue nothing is selected and the
iteration exits the loop. -/
theorem C1_stream_selection (streams : List AVStreamM) (sdata : List StreamDataM)
    (sh : SharedDataM) (hlen : streams.length = sdata.length) :
    (findOldestStream (streams.zip sdata) = none ↔
       ∀ sd ∈ sdata, sd.is_done = true ∧ sd.packet_queue = []) ∧
    (∀ (rescale : Int → Rat → Rat → Int) (writeOk : Bool) (offset : Nat),
       muxerIterate rescale writeOk offset ⟨streams, sdata, sh⟩ = .exit ↔
       findOldestStream (streams.zip sdata) = none) ∧
    (∀ j q, findOldestStream (streams.zip sdata) = some (j, q) →
       ∃ pr, (streams.zip sdata).get? j = some pr ∧ streamEligible pr.2 = true ∧
         q = streamKey pr.1 ∧
         (∀ k pr2, (streams.zip sdata).get? k = some pr2 → streamEligible pr2.2 = true →
           q ≤ streamKey pr2.1 ∧ (k < j → q < streamKey pr2.1))) := by
  refine ⟨?_, ?_, ?_⟩
  · unfold findOldestStream
    rw [findOldestAux_none_iff]
    simp only [true_and]
    constructor
    · intro hall sd hsd
      rcases List.mem_iff_get?.mp hsd with ⟨k, hk⟩
      have hk' : k < sdata.length := by
        rcases List.get?_eq_some.mp hk with ⟨h, _⟩
        exact h
      have hks : k < streams.length := by omega
      have hs : streams.get? k = some (streams.get ⟨k, hks⟩) := List.get?_eq_get hks
      have hzip : (streams.zip sdata).get? k = some (streams.get ⟨k, hks⟩, sd) := by
        rw [get?_zip, hs, hk]
      have hmem : (streams.get ⟨k, hks⟩, sd) ∈ streams.zip sdata := List.get?_mem hzip
      have := hall _ hmem
      simp only [streamEligible, Bool.or_eq_false_iff, Bool.not_eq_false',
        Bool.not_eq_true'] at this
      refine ⟨this.1, ?_⟩
      have h2 := this.2
      rwa [List.isEmpty_iff] at h2
    · intro hall p hp
      rcases p with ⟨a, b⟩
      have hb := (List.of_mem_zip hp).2
      have := hall b hb
      simp [streamEligible, this.1, this.2]
  · intro rescale writeOk offset
    cases hfind : findOldestStream (streams.zip sdata) with
    | none => simp [muxerIterate, hfind]
    | some r =>
      rcases r with ⟨i, q⟩
      simp only [muxerIterate, hfind]
      cases hq : (sdata.getD i ⟨true, []⟩).packet_queue with
      | nil => simp
      | cons p2 rest =>
        by_cases hw : writeOk <;> simp [hw]
  · intro j q hfind
    unfold findOldestStream at hfind
    rcases findOldestAux_some_spec _ 0 none j q hfind with ⟨hacc, _⟩ | hright
    · cases hacc
    · rcases hright with ⟨k, pr, hget, hj, helig, hq, hmin, _⟩
      have hjk : j = k := by omega
      subst hjk
      exact ⟨pr, hget, helig, hq, fun m pr2 hg he => hmin m pr2 hg he⟩

/-- Witness for `C1_stream_selection`: with two live streams of keys 5
and 3 the worker selects stream 1 (key 3); with a single done-and-empty
stream nothing is selected and the iteration exits. -/
theorem C1_stream_selection_witness :
    (∃ pr, ([(⟨5, 1, 1⟩ : AVStreamM), ⟨3, 1, 1⟩].zip
        [(⟨false, [⟨0, 0, 0, true⟩]⟩ : StreamDataM), ⟨false, [⟨0, 0, 0, true⟩]⟩]).get? 1
          = some pr ∧
      streamEligible pr.2 = true ∧ (3 : Rat) = streamKey pr.1 ∧
      (∀ k pr2, ([(⟨5, 1, 1⟩ : AVStreamM), ⟨3, 1, 1⟩].zip
          [(⟨false, [⟨0, 0, 0, true⟩]⟩ : StreamDataM), ⟨false, [⟨0, 0, 0, true⟩]⟩]).get? k
            = some pr2 →
        streamEligible pr2.2 = true →
        (3 : Rat) ≤ streamKey pr2.1 ∧ (k < 1 → (3 : Rat) < streamKey pr2.1))) ∧
    findOldestStream ([(⟨5, 1, 1⟩ : AVStreamM)].zip [(⟨true, []⟩ : StreamDataM)]) = none ∧
    muxerIterate (fun a _ _ => a) true 0
      ⟨[⟨5, 1, 1⟩], [⟨true, []⟩], ⟨0, 0, none, 0⟩⟩ = .exit := by
  have hnone : findOldestStream ([(⟨5, 1, 1⟩ : AVStreamM)].zip [(⟨true, []⟩ : StreamDataM)])
      = none := by
    apply (C1_stream_selection [⟨5, 1, 1⟩] [⟨true, []⟩] ⟨0, 0, none, 0⟩ rfl).1.mpr
    intro sd hsd
    simp only [List.mem_singleton] at hsd
    rw [hsd]
    exact ⟨rfl, rfl⟩
  refine ⟨?_, hnone, ?_⟩
  · exact (C1_stream_selection [⟨5, 1, 1⟩, ⟨3, 1, 1⟩]
      [⟨false, [⟨0, 0, 0, true⟩]⟩, ⟨false, [⟨0, 0, 0, true⟩]⟩] ⟨0, 0, none, 0⟩ rfl).2.2
      1 3 (by
        unfold findOldestStream
        simp only [List.zip_cons_cons, List.zip_nil_right, findOldestAux,
          streamEligible, streamKey]
        norm_num)
  · exact ((C1_stream_selection [⟨5, 1, 1⟩] [⟨true, []⟩] ⟨0, 0, none, 0⟩ rfl).2.1
      (fun a _ _ => a) true 0).mpr hnone

/-! ## Claims C7 and C5 -/

lemma muxerIterate_wrote_eq (rescale : Int → Rat → Rat → Int) (offset : Nat)
    (st : MuxerState) (i : Nat) (q : Rat) (p : AVPacketM) (rest : List AVPacketM)
    (hfind : findOldestStream (st.streams.zip st.stream_data) = some (i, q))
    (hqueue : (st.stream_data.getD i ⟨true, []⟩).packet_queue = p :: rest) :
    muxerIterate rescale true offset st = .wrote
      { streams := st.streams
        stream_data := st.stream_data.set i
          { is_done := (st.stream_data.getD i ⟨true, []⟩).is_done, packet_queue := rest }
        shared := statsUpdate st.shared offset q }
      { pts := if p.pts = AV_NOPTS_VALUE then p.pts
          else rescale p.pts (st.streams.getD i ⟨0, 0, 0⟩).codec_time_base
            (st.streams.getD i ⟨0, 0, 0⟩).time_base
        dts := if p.dts = AV_NOPTS_VALUE then p.dts
          else rescale p.dts (st.streams.getD i ⟨0, 0, 0⟩).codec_time_base
            (st.streams.getD i ⟨0, 0, 0⟩).time_base
        stream_index := i
        free_on_destruct := false } := by
  simp only [muxerIterate, hfind]
  rw [hqueue]
  by_cases hpts : p.pts = AV_NOPTS_VALUE <;> by_cases hdts : p.dts = AV_NOPTS_VALUE <;>
    simp [hpts, hdts]

/-- Claim C7: the packet popped by the worker has its pts rescaled from
the encoder time base to the stream time base exactly when it is not
the `AV_NOPTS_VALUE` sentinel, and independently likewise for dts; an
unknown field stays the unknown sentinel. -/
theorem C7_rescale_iff (rescale : Int → Rat → Rat → Int) (offset : Nat)
    (st : MuxerState) (i : Nat) (q : Rat) (p : AVPacketM) (rest : List AVPacketM)
    (hfind : findOldestStream (st.streams.zip st.stream_data) = some (i, q))
    (hqueue : (st.stream_data.getD i ⟨true, []⟩).packet_queue = p :: rest) :
    ∃ st2 out, muxerIterate rescale true offset st = .wrote st2 out ∧
      (p.pts = AV_NOPTS_VALUE → out.pts = AV_NOPTS_VALUE) ∧
      (p.pts ≠ AV_NOPTS_VALUE →
        out.pts = rescale p.pts (st.streams.getD i ⟨0, 0, 0⟩).codec_time_base
          (st.streams.getD i ⟨0, 0, 0⟩).time_base) ∧
      (p.dts = AV_NOPTS_VALUE → out.dts = AV_NOPTS_VALUE) ∧
      (p.dts ≠ AV_NOPTS_VALUE →
        out.dts = rescale p.dts (st.streams.getD i ⟨0, 0, 0⟩).codec_time_base
          (st.streams.getD i ⟨0, 0, 0⟩).time_base) ∧
      out.stream_index = i ∧ out.free_on_destruct = false := by
  refine ⟨_, _, muxerIterate_wrote_eq rescale offset st i q p rest hfind hqueue,
    ?_, ?_, ?_, ?_, rfl, rfl⟩
  · intro h
    simp [h]
  · intro h
    simp [h]
  · intro h
    simp [h]
  · intro h
    simp [h]

/-- Witness packet extractor: the packet carried by a `wrote` step. -/
def wrotePacket : MuxStep → Option AVPacketM
  | .wrote _ out => some out
  | _ => none

/-- Witness for `C7_rescale_iff`: one stream whose head packet has
unknown pts and dts 7; with a doubling rescale oracle the written
packet keeps the unknown pts and carries dts 14. -/
theorem C7_rescale_iff_witness :
    wrotePacket (muxerIterate (fun a _ _ => 2 * a) true 0
      ⟨[⟨1, 1, 1⟩], [⟨false, [⟨AV_NOPTS_VALUE, 7, 5, true⟩]⟩], ⟨0, 0, none, 0⟩⟩)
      = some ⟨AV_NOPTS_VALUE, 14, 0, false⟩ := by
  obtain ⟨st2, out, heq, h1, h2, h3, h4, h5, h6⟩ :=
    C7_rescale_iff (fun a _ _ => 2 * a) 0
      ⟨[⟨1, 1, 1⟩], [⟨false, [⟨AV_NOPTS_VALUE, 7, 5, true⟩]⟩], ⟨0, 0, none, 0⟩⟩
      0 1 ⟨AV_NOPTS_VALUE, 7, 5, true⟩ []
      (by
        unfold findOldestStream
        simp only [List.zip_cons_cons, List.zip_nil_right, findOldestAux,
          streamEligible, streamKey]
        norm_num)
      (by rfl)
  rw [heq]
  have hout : out = ⟨AV_NOPTS_VALUE, 14, 0, false⟩ := by
    rcases out with ⟨opts, odts, oidx, ofree⟩
    have e1 := h1 rfl
    have e2 := h4 (by unfold AV_NOPTS_VALUE; norm_num)
    simp at e1 e2 h5 h6
    simp [e1, e2, h5, h6]
  rw [hout]
  rfl

lemma statsUpdate_spec (sd : SharedDataM) (offset : Nat) (pts : Rat) :
    (statsUpdate sd offset pts).total_bytes = offset ∧
    (sd.stats_previous_pts = none →
        (statsUpdate sd offset pts).stats_previous_pts = some pts ∧
        (statsUpdate sd offset pts).stats_previous_bytes = offset ∧
        (statsUpdate sd offset pts).stats_actual_bit_rate = sd.stats_actual_bit_rate) ∧
    (∀ pv, sd.stats_previous_pts = some pv →
        ((999999 : Rat) / 1000000 < pts - pv →
            (statsUpdate sd offset pts).stats_actual_bit_rate
              = ((((offset : Int) - (sd.stats_previous_bytes : Int)) * 8).emod (2 ^ 64) : Int)
                / (pts - pv) ∧
            (statsUpdate sd offset pts).stats_previous_pts = some pts ∧
            (statsUpdate sd offset pts).stats_previous_bytes = offset) ∧
        (¬ (999999 : Rat) / 1000000 < pts - pv →
            (statsUpdate sd offset pts).stats_actual_bit_rate = sd.stats_actual_bit_rate ∧
            (statsUpdate sd offset pts).stats_previous_pts = some pv ∧
            (statsUpdate sd offset pts).stats_previous_bytes = sd.stats_previous_bytes)) := by
  unfold statsUpdate
  cases hprev : sd.stats_previous_pts with
  | none =>
    simp only [hprev]
    rw [if_neg (by
      rw [sub_self]
      norm_num)]
    refine ⟨rfl, fun _ => ⟨rfl, rfl, rfl⟩, ?_⟩
    intro pv hpv
    cases hpv
  | some pv0 =>
    simp only [hprev]
    constructor
    · split_ifs <;> rfl
    constructor
    · intro hcontra
      cases hcontra
    · intro pv hpv
      injection hpv with hpv2
      subst hpv2
      constructor
      · intro hcond
        rw [if_pos hcond]
        exact ⟨rfl, rfl, rfl⟩
      · intro hcond
        rw [if_neg hcond]
        exact ⟨rfl, rfl, rfl⟩

/-- Rate extractor for the state carried by a `wrote` step. -/
def wroteRate : MuxStep → Option Rat
  | .wrote st _ => some st.shared.stats_actual_bit_rate
  | _ => none

/-- Counterexample to claim C5 as stated: a worker iteration whose
selected stream has key pts 1 while the previous window point is at
pts 0.  The elapsed stream time is exactly 1 second - it does not
exceed 1 second, so the claim requires `actual_bit_rate` to stay
unchanged (0) - yet the code's `timedelta > 0.999999` test fires and
recomputes the rate to 8000. -/
theorem C5_counterexample :
    wroteRate (muxerIterate (fun a _ _ => a) true 1000
      ⟨[⟨1, 1, 1⟩], [⟨false, [⟨0, 0, 0, true⟩]⟩], ⟨0, 0, some 0, 0⟩⟩) = some 8000 ∧
    (8000 : Rat) ≠ 0 ∧
    ¬ (1 : Rat) - 0 > 1 ∧
    streamKey (⟨1, 1, 1⟩ : AVStreamM) = 1 := by
  have heq := muxerIterate_wrote_eq (fun a _ _ => a) 1000
    ⟨[⟨1, 1, 1⟩], [⟨false, [⟨0, 0, 0, true⟩]⟩], ⟨0, 0, some 0, 0⟩⟩ 0 1
    ⟨0, 0, 0, true⟩ []
    (by
      unfold findOldestStream
      simp only [List.zip_cons_cons, List.zip_nil_right, findOldestAux,
        streamEligible, streamKey]
      norm_num)
    (by rfl)
  refine ⟨?_, by norm_num, by norm_num, by norm_num [streamKey]⟩
  rw [heq]
  have hstats := (statsUpdate_spec ⟨0, 0, some 0, 0⟩ 1000 1).2.2 0 rfl
  have hrate := (hstats.1 (by norm_num)).1
  simp only [wroteRate, Option.some.injEq]
  rw [hrate]
  norm_num

/-- Claim C5, amended: after a successful write, `total_bytes` is set
from the container's reported file offset (hence non-decreasing
whenever the container offset is); the first update seeds the window
point and leaves the rate untouched; thereafter the rate is recomputed
as `(total_bytes - window_prev_bytes) * 8 / (pts - window_prev_pts)`
(with the `uint64` arithmetic reduced mod `2^64`) and the window
re-seeded exactly when the elapsed stream time exceeds the code's
threshold of `0.999999` seconds, and the rate is left unchanged
otherwise. -/
theorem C5_stats_amended (rescale : Int → Rat → Rat → Int) (offset : Nat)
    (st : MuxerState) (i : Nat) (q : Rat) (p : AVPacketM) (rest : List AVPacketM)
    (hfind : findOldestStream (st.streams.zip st.stream_data) = some (i, q))
    (hqueue : (st.stream_data.getD i ⟨true, []⟩).packet_queue = p :: rest) :
    ∃ st2 out, muxerIterate rescale true offset st = .wrote st2 out ∧
      st2.shared.total_bytes = offset ∧
      (st.shared.total_bytes ≤ offset → st.shared.total_bytes ≤ st2.shared.total_bytes) ∧
      (st.shared.stats_previous_pts = none →
          st2.shared.stats_previous_pts = some q ∧
          st2.shared.stats_previous_bytes = offset ∧
          st2.shared.stats_actual_bit_rate = st.shared.stats_actual_bit_rate) ∧
      (∀ pv, st.shared.stats_previous_pts = some pv →
          ((999999 : Rat) / 1000000 < q - pv →
              st2.shared.stats_actual_bit_rate
                = ((((offset : Int) - (st.shared.stats_previous_bytes : Int)) * 8).emod (2 ^ 64)
                    : Int) / (q - pv) ∧
              st2.shared.stats_previous_pts = some q ∧
              st2.shared.stats_previous_bytes = offset) ∧
          (¬ (999999 : Rat) / 1000000 < q - pv →
              st2.shared.stats_actual_bit_rate = st.shared.stats_actual_bit_rate ∧
              st2.shared.stats_previous_pts = some pv ∧
              st2.shared.stats_previous_bytes = st.shared.stats_previous_bytes)) := by
  refine ⟨_, _, muxerIterate_wrote_eq rescale offset st i q p rest hfind hqueue, ?_, ?_, ?_, ?_⟩
  · exact (statsUpdate_spec st.shared offset q).1
  · intro h
    rw [(statsUpdate_spec st.shared offset q).1]
    exact h
  · exact (statsUpdate_spec st.shared offset q).2.1
  · exact (statsUpdate_spec st.shared offset q).2.2

/-- Witness for `C5_stats_amended`: the concrete iteration of
`C5_counterexample` seen through the amended claim - the elapsed
stream time 1 exceeds the 0.999999 threshold, so the rate becomes
8000 and the window is re-seeded at pts 1 with 1000 bytes. -/
theorem C5_stats_amended_witness :
    ∃ st2 out, muxerIterate (fun a _ _ => a) true 1000
      ⟨[⟨1, 1, 1⟩], [⟨false, [⟨0, 0, 0, true⟩]⟩], ⟨0, 0, some 0, 0⟩⟩ = .wrote st2 out ∧
      st2.shared.total_bytes = 1000 ∧
      st2.shared.stats_actual_bit_rate = 8000 ∧
      st2.shared.stats_previous_pts = some 1 ∧
      st2.shared.stats_previous_bytes = 1000 := by
  obtain ⟨st2, out, heq, htotal, hmono, hseed, hwin⟩ :=
    C5_stats_amended (fun a _ _ => a) 1000
      ⟨[⟨1, 1, 1⟩], [⟨false, [⟨0, 0, 0, true⟩]⟩], ⟨0, 0, some 0, 0⟩⟩ 0 1
      ⟨0, 0, 0, true⟩ []
      (by
        unfold findOldestStream
        simp only [List.zip_cons_cons, List.zip_nil_right, findOldestAux,
          streamEligible, streamKey]
        norm_num)
      (by rfl)
  have h := (hwin 0 rfl).1 (by norm_num)
  refine ⟨st2, out, heq, htotal, ?_, h.2.1, h.2.2⟩
  rw [h.1]
  norm_num

/-! ## Claim C6 -/

lemma drawCursorPixel_untouched (img : Nat → Nat) (base cpix o : Nat)
    (ho : o < base ∨ base + 3 ≤ o) :
    drawCursorPixel img base cpix o = img o := by
  simp only [drawCursorPixel]
  split_ifs <;>
    rw [Function.update_noteq (by omega), Function.update_noteq (by omega),
      Function.update_noteq (by omega)]

lemma drawCursorPixel_at0 (img : Nat → Nat) (base cpix : Nat) :
    drawCursorPixel img base cpix base =
      if cpix / 2 ^ 24 % 256 = 255 then cpix % 256
      else ((img base * (255 - cpix / 2 ^ 24 % 256) + 127) / 255 + cpix % 256) % 256 := by
  simp only [drawCursorPixel]
  split_ifs <;> rw [Function.update_same]

lemma drawCursorPixel_at1 (img : Nat → Nat) (base cpix : Nat) :
    drawCursorPixel img base cpix (base + 1) =
      if cpix / 2 ^ 24 % 256 = 255 then cpix / 2 ^ 8 % 256
      else ((img (base + 1) * (255 - cpix / 2 ^ 24 % 256) + 127) / 255
        + cpix / 2 ^ 8 % 256) % 256 := by
  simp only [drawCursorPixel]
  split_ifs <;> rw [Function.update_noteq (by omega), Function.update_same]

lemma drawCursorPixel_at2 (img : Nat → Nat) (base cpix : Nat) :
    drawCursorPixel img base cpix (base + 2) =
      if cpix / 2 ^ 24 % 256 = 255 then cpix / 2 ^ 16 % 256
      else ((img (base + 2) * (255 - cpix / 2 ^ 24 % 256) + 127) / 255
        + cpix / 2 ^ 16 % 256) % 256 := by
  simp only [drawCursorPixel]
  split_ifs <;>
    rw [Function.update_noteq (by omega), Function.update_noteq (by omega),
      Function.update_same]

lemma drawCursorPixel_congr (img1 img2 : Nat → Nat) (base cpix o : Nat)
    (h0 : img1 base = img2 base) (h1 : img1 (base + 1) = img2 (base + 1))
    (h2 : img1 (base + 2) = img2 (base + 2)) (ho : base ≤ o ∧ o < base + 3) :
    drawCursorPixel img1 base cpix o = drawCursorPixel img2 base cpix o := by
  have hcase : o = base ∨ o = base + 1 ∨ o = base + 2 := by omega
  rcases hcase with rfl | rfl | rfl
  · rw [drawCursorPixel_at0, drawCursorPixel_at0, h0]
  · rw [drawCursorPixel_at1, drawCursorPixel_at1, h1]
  · rw [drawCursorPixel_at2, drawCursorPixel_at2, h2]

/-- Sequential compositing of a list of (pixel base offset, cursor
pixel) jobs, as the two nested loops of `GLImageDrawCursor` perform. -/
def drawJobs (jobs : List (Nat × Nat)) (img : Nat → Nat) : Nat → Nat :=
  jobs.foldl (fun im jb => drawCursorPixel im jb.1 jb.2) img

lemma drawJobs_lookup (jobs : List (Nat × Nat)) :
    ∀ (img : Nat → Nat) (o : Nat),
      jobs.Pairwise (fun a b => a.1 + 4 ≤ b.1 ∨ b.1 + 4 ≤ a.1) →
      drawJobs jobs img o =
        match jobs.find? (fun jb => decide (jb.1 ≤ o ∧ o < jb.1 + 3)) with
        | some jb => drawCursorPixel img jb.1 jb.2 o
        | none => img o := by
  induction jobs with
  | nil => intro img o _; simp [drawJobs]
  | cons jb0 rest ih =>
    intro img o hp
    rcases List.pairwise_cons.mp hp with ⟨hhead, htail⟩
    have hfold : drawJobs (jb0 :: rest) img = drawJobs rest (drawCursorPixel img jb0.1 jb0.2) :=
      rfl
    rw [hfold, ih _ o htail]
    by_cases htouch : jb0.1 ≤ o ∧ o < jb0.1 + 3
    · rw [List.find?_cons_of_pos _ (by simpa using htouch)]
      have hnone : rest.find? (fun jb => decide (jb.1 ≤ o ∧ o < jb.1 + 3)) = none := by
        rw [List.find?_eq_none]
        intro x hx
        have hd := hhead x hx
        simp only [decide_eq_true_eq]
        omega
      rw [hnone]
    · rw [List.find?_cons_of_neg _ (by simpa using htouch)]
      cases hfind : rest.find? (fun jb => decide (jb.1 ≤ o ∧ o < jb.1 + 3)) with
      | some jbf =>
        have hpred := List.find?_some hfind
        simp only [decide_eq_true_eq] at hpred
        have hmem : jbf ∈ rest := List.mem_of_find?_eq_some hfind
        have hd := hhead jbf hmem
        exact drawCursorPixel_congr _ _ _ _ _
          (drawCursorPixel_untouched img jb0.1 jb0.2 jbf.1 (by omega))
          (drawCursorPixel_untouched img jb0.1 jb0.2 (jbf.1 + 1) (by omega))
          (drawCursorPixel_untouched img jb0.1 jb0.2 (jbf.1 + 2) (by omega))
          hpred
      | none =>
        exact drawCursorPixel_untouched img jb0.1 jb0.2 o (by omega)

lemma find?_touch_of_mem (jobs : List (Nat × Nat)) (o : Nat) (jb : Nat × Nat)
    (hp : jobs.Pairwise (fun a b => a.1 + 4 ≤ b.1 ∨ b.1 + 4 ≤ a.1))
    (hmem : jb ∈ jobs) (ht : jb.1 ≤ o ∧ o < jb.1 + 3) :
    jobs.find? (fun x => decide (x.1 ≤ o ∧ o < x.1 + 3)) = some jb := by
  induction jobs with
  | nil => cases hmem
  | cons h0 rest ih =>
    rcases List.pairwise_cons.mp hp with ⟨hhead, htail⟩
    rcases List.mem_cons.mp hmem with rfl | hmem2
    · exact List.find?_cons_of_pos _ (by simpa using ht)
    · have hd := hhead jb hmem2
      rw [List.find?_cons_of_neg _ (by simp only [decide_eq_true_eq]; omega)]
      exact ih htail hmem2

/-- Cursor x position relative to the recording area. -/
def cursorX (xcim : XFixesCursorImage) (rx : Int) : Int := xcim.x - xcim.xhot - rx

/-- Cursor y position relative to the recording area. -/
def cursorY (xcim : XFixesCursorImage) (ry : Int) : Int := xcim.y - xcim.yhot - ry

/-- Left edge of the visible part of the cursor, in cursor coordinates. -/
def visL (xcim : XFixesCursorImage) (rx : Int) : Int := max 0 (-(cursorX xcim rx))

/-- Right edge (exclusive) of the visible part of the cursor. -/
def visR (xcim : XFixesCursorImage) (iw : Nat) (rx : Int) : Int :=
  min (xcim.width : Int) ((iw : Int) - cursorX xcim rx)

/-- Top edge of the visible part of the cursor. -/
def visT (xcim : XFixesCursorImage) (ry : Int) : Int := max 0 (-(cursorY xcim ry))

/-- Bottom edge (exclusive) of the visible part of the cursor. -/
def visB (xcim : XFixesCursorImage) (ih : Nat) (ry : Int) : Int :=
  min (xcim.height : Int) ((ih : Int) - cursorY xcim ry)

/-- The list of (pixel base offset, cursor pixel) jobs the two loops of
`GLImageDrawCursor` process, row by row. -/
def cursorJobs (xcim : XFixesCursorImage) (stride iw ih : Nat) (rx ry : Int) :
    List (Nat × Nat) :=
  ((intRange (visT xcim ry) (visB xcim ih ry)).map fun j =>
    (intRange (visL xcim rx) (visR xcim iw rx)).map fun i =>
      (cursorBase stride ih (cursorX xcim rx) (cursorY xcim ry) j i,
        xcim.pixels (xcim.width * j.toNat + i.toNat))).flatten

lemma drawCursorImage_eq_drawJobs (xcim : XFixesCursorImage) (image : Nat → Nat)
    (stride iw ih : Nat) (rx ry : Int) :
    drawCursorImage xcim image stride iw ih rx ry
      = drawJobs (cursorJobs xcim stride iw ih rx ry) image := by
  simp only [drawCursorImage, cursorJobs, drawJobs, cursorX, cursorY, visL, visR, visT, visB,
    List.foldl_flatten, List.foldl_map]

lemma mem_intRange {lo hi i : Int} : i ∈ intRange lo hi ↔ lo ≤ i ∧ i < hi := by
  unfold intRange
  constructor
  · intro h
    rcases List.mem_map.mp h with ⟨k, hk, rfl⟩
    rw [List.mem_range] at hk
    constructor
    · show lo ≤ lo + (k : Int)
      omega
    · show lo + (k : Int) < hi
      omega
  · intro h
    apply List.mem_map.mpr
    refine ⟨(i - lo).toNat, ?_, ?_⟩
    · rw [List.mem_range]
      omega
    · show lo + ((i - lo).toNat : Int) = i
      omega

lemma intRange_pairwise_lt (lo hi : Int) : (intRange lo hi).Pairwise (· < ·) := by
  unfold intRange
  rw [List.pairwise_map]
  refine (List.pairwise_lt_range _).imp ?_
  intro a b h
  show lo + (a : Int) < lo + (b : Int)
  omega

lemma cursorBase_col_sep (stride ih : Nat) (x y j i1 i2 : Int)
    (hx1 : 0 ≤ x + i1) (hlt : i1 < i2) :
    cursorBase stride ih x y j i1 + 4 ≤ cursorBase stride ih x y j i2 := by
  unfold cursorBase
  have h1 : (x + i1).toNat + 1 ≤ (x + i2).toNat := by omega
  omega

lemma cursorBase_row_sep (stride iw ih : Nat) (x y j1 i1 j2 i2 : Int)
    (hstride : 4 * iw ≤ stride)
    (hx2 : 0 ≤ x + i2) (hx2' : x + i2 < (iw : Int))
    (hy1 : 0 ≤ y + j1) (hy2' : y + j2 < (ih : Int))
    (hjj : j1 < j2) :
    cursorBase stride ih x y j2 i2 + 4 ≤ cursorBase stride ih x y j1 i1 := by
  unfold cursorBase
  have ha : (y + j1).toNat + 1 ≤ (y + j2).toNat := by omega
  have ha2 : (y + j2).toNat < ih := by omega
  have hr : (ih - 1 - (y + j2).toNat) + 1 ≤ ih - 1 - (y + j1).toNat := by omega
  have hmul : stride * ((ih - 1 - (y + j2).toNat) + 1)
      ≤ stride * (ih - 1 - (y + j1).toNat) := Nat.mul_le_mul_left stride hr
  rw [Nat.mul_succ] at hmul
  have hc2 : 4 * (x + i2).toNat + 4 ≤ stride := by omega
  omega

lemma cursorJobs_pairwise (xcim : XFixesCursorImage) (stride iw ih : Nat) (rx ry : Int)
    (hstride : 4 * iw ≤ stride) :
    (cursorJobs xcim stride iw ih rx ry).Pairwise
      (fun a b => a.1 + 4 ≤ b.1 ∨ b.1 + 4 ≤ a.1) := by
  unfold cursorJobs
  rw [List.pairwise_flatten]
  constructor
  · intro row hrow
    rcases List.mem_map.mp hrow with ⟨j, hjmem, rfl⟩
    rw [List.pairwise_map]
    refine List.Pairwise.imp_of_mem ?_ (intRange_pairwise_lt _ _)
    intro i1 i2 h1 h2 hlt
    rw [mem_intRange] at h1 h2
    have hx1 : 0 ≤ cursorX xcim rx + i1 := by
      have := h1.1
      unfold visL at this
      omega
    exact Or.inl (cursorBase_col_sep stride ih _ _ j i1 i2 hx1 hlt)
  · rw [List.pairwise_map]
    refine List.Pairwise.imp_of_mem ?_ (intRange_pairwise_lt _ _)
    intro j1 j2 hj1 hj2 hlt a ha b hb
    rcases List.mem_map.mp ha with ⟨i1, hi1, rfl⟩
    rcases List.mem_map.mp hb with ⟨i2, hi2, rfl⟩
    rw [mem_intRange] at hj1 hj2 hi1 hi2
    refine Or.inr (cursorBase_row_sep stride iw ih _ _ j1 i1 j2 i2 hstride ?_ ?_ ?_ ?_ hlt)
    · have := hi2.1
      unfold visL at this
      omega
    · have := hi2.2
      unfold visR at this
      omega
    · have := hj1.1
      unfold visT at this
      omega
    · have := hj2.2
      unfold visB at this
      omega

lemma mem_cursorJobs (xcim : XFixesCursorImage) (stride iw ih : Nat) (rx ry : Int)
    (jb : Nat × Nat) :
    jb ∈ cursorJobs xcim stride iw ih rx ry ↔
      ∃ j i, (visT xcim ry ≤ j ∧ j < visB xcim ih ry ∧
              visL xcim rx ≤ i ∧ i < visR xcim iw rx) ∧
        jb = (cursorBase stride ih (cursorX xcim rx) (cursorY xcim ry) j i,
          xcim.pixels (xcim.width * j.toNat + i.toNat)) := by
  unfold cursorJobs
  simp only [List.mem_flatten, List.mem_map]
  constructor
  · rintro ⟨row, ⟨j, hj, rfl⟩, hjb⟩
    rcases List.mem_map.mp hjb with ⟨i, hi, rfl⟩
    rw [mem_intRange] at hj hi
    exact ⟨j, i, ⟨hj.1, hj.2, hi.1, hi.2⟩, rfl⟩
  · rintro ⟨j, i, ⟨hj1, hj2, hi1, hi2⟩, rfl⟩
    refine ⟨_, ⟨j, mem_intRange.mpr ⟨hj1, hj2⟩, rfl⟩, ?_⟩
    exact List.mem_map.mpr ⟨i, mem_intRange.mpr ⟨hi1, hi2⟩, rfl⟩

lemma visRect_bounds (xcim : XFixesCursorImage) (iw ih : Nat) (rx ry j i : Int)
    (h1 : visT xcim ry ≤ j) (h2 : j < visB xcim ih ry)
    (h3 : visL xcim rx ≤ i) (h4 : i < visR xcim iw rx) :
    0 ≤ cursorX xcim rx + i ∧ cursorX xcim rx + i < (iw : Int) ∧
    0 ≤ cursorY xcim ry + j ∧ cursorY xcim ry + j < (ih : Int) := by
  simp only [visT, visB, visL, visR] at h1 h2 h3 h4
  omega

lemma cursorBase_sep (stride iw ih : Nat) (x y : Int) (j1 i1 j2 i2 : Int)
    (hstride : 4 * iw ≤ stride)
    (hx1 : 0 ≤ x + i1) (hx1' : x + i1 < (iw : Int))
    (hx2 : 0 ≤ x + i2) (hx2' : x + i2 < (iw : Int))
    (hy1 : 0 ≤ y + j1) (hy1' : y + j1 < (ih : Int))
    (hy2 : 0 ≤ y + j2) (hy2' : y + j2 < (ih : Int))
    (hne : ¬ (j1 = j2 ∧ i1 = i2)) :
    cursorBase stride ih x y j1 i1 + 4 ≤ cursorBase stride ih x y j2 i2 ∨
    cursorBase stride ih x y j2 i2 + 4 ≤ cursorBase stride ih x y j1 i1 := by
  rcases lt_trichotomy j1 j2 with hj | hj | hj
  · exact Or.inr (cursorBase_row_sep stride iw ih x y j1 i1 j2 i2 hstride hx2 hx2' hy1 hy2' hj)
  · subst hj
    have hii : i1 ≠ i2 := fun h => hne ⟨rfl, h⟩
    rcases lt_or_gt_of_ne hii with hi | hi
    · exact Or.inl (cursorBase_col_sep stride ih x y j1 i1 i2 hx1 hi)
    · exact Or.inr (cursorBase_col_sep stride ih x y j1 i2 i1 hx2 hi)
  · exact Or.inl (cursorBase_row_sep stride iw ih x y j2 i2 j1 i1 hstride hx1 hx1' hy2 hy1' hj)

lemma blend_lt_256 (inb a c : Nat) (hin : inb ≤ 255) (ha : a ≤ 255) (hc : c ≤ a) :
    (inb * (255 - a) + 127) / 255 + c < 256 := by
  have h1 : inb * (255 - a) ≤ 255 * (255 - a) := Nat.mul_le_mul_right (255 - a) hin
  have h2 : (inb * (255 - a) + 127) / 255 ≤ (255 * (255 - a) + 127) / 255 :=
    Nat.div_le_div_right (Nat.add_le_add_right h1 127)
  have h3 : (255 * (255 - a) + 127) / 255 = 255 - a := by omega
  omega

/-- Claim C6: a cursor-compositing pass overwrites the B, G, R bytes
of every image pixel inside the cursor's visible clipped rectangle -
rows addressed bottom-up via `cursorBase` - replacing them for a fully
opaque cursor pixel and blending `(in * (255 - a) + 127) / 255 + c`
(round-to-nearest premultiplied alpha) otherwise; the pixel's fourth
byte and every byte outside the visible rectangle are left unchanged. -/
theorem C6_cursor_composite (xcim : XFixesCursorImage) (image : Nat → Nat)
    (stride iw ih : Nat) (rx ry : Int)
    (hstride : 4 * iw ≤ stride)
    (himg : ∀ o, image o ≤ 255)
    (hpre : ∀ idx, xcim.pixels idx / 2 ^ 16 % 256 ≤ xcim.pixels idx / 2 ^ 24 % 256 ∧
        xcim.pixels idx / 2 ^ 8 % 256 ≤ xcim.pixels idx / 2 ^ 24 % 256 ∧
        xcim.pixels idx % 256 ≤ xcim.pixels idx / 2 ^ 24 % 256) :
    (∀ o : Nat,
      (∀ j i, visT xcim ry ≤ j → j < visB xcim ih ry →
        visL xcim rx ≤ i → i < visR xcim iw rx →
        o ≠ cursorBase stride ih (cursorX xcim rx) (cursorY xcim ry) j i ∧
        o ≠ cursorBase stride ih (cursorX xcim rx) (cursorY xcim ry) j i + 1 ∧
        o ≠ cursorBase stride ih (cursorX xcim rx) (cursorY xcim ry) j i + 2) →
      drawCursorImage xcim image stride iw ih rx ry o = image o) ∧
    (∀ j i, visT xcim ry ≤ j → j < visB xcim ih ry →
      visL xcim rx ≤ i → i < visR xcim iw rx →
      ∀ base pix a,
        base = cursorBase stride ih (cursorX xcim rx) (cursorY xcim ry) j i →
        pix = xcim.pixels (xcim.width * j.toNat + i.toNat) →
        a = pix / 2 ^ 24 % 256 →
        drawCursorImage xcim image stride iw ih rx ry (base + 3) = image (base + 3) ∧
        (a = 255 →
          drawCursorImage xcim image stride iw ih rx ry (base + 2) = pix / 2 ^ 16 % 256 ∧
          drawCursorImage xcim image stride iw ih rx ry (base + 1) = pix / 2 ^ 8 % 256 ∧
          drawCursorImage xcim image stride iw ih rx ry base = pix % 256) ∧
        (a < 255 →
          drawCursorImage xcim image stride iw ih rx ry (base + 2)
            = (image (base + 2) * (255 - a) + 127) / 255 + pix / 2 ^ 16 % 256 ∧
          drawCursorImage xcim image stride iw ih rx ry (base + 1)
            = (image (base + 1) * (255 - a) + 127) / 255 + pix / 2 ^ 8 % 256 ∧
          drawCursorImage xcim image stride iw ih rx ry base
            = (image base * (255 - a) + 127) / 255 + pix % 256)) := by
  have hpair := cursorJobs_pairwise xcim stride iw ih rx ry hstride
  constructor
  · intro o hout
    rw [drawCursorImage_eq_drawJobs, drawJobs_lookup _ image o hpair]
    have hnone : (cursorJobs xcim stride iw ih rx ry).find?
        (fun jb => decide (jb.1 ≤ o ∧ o < jb.1 + 3)) = none := by
      rw [List.find?_eq_none]
      intro jb hjb
      rcases (mem_cursorJobs xcim stride iw ih rx ry jb).mp hjb with
        ⟨j, i, ⟨h1, h2, h3, h4⟩, rfl⟩
      simp only [decide_eq_true_eq]
      have hne := hout j i h1 h2 h3 h4
      omega
    rw [hnone]
  · intro j i h1 h2 h3 h4 base pix a hbase hpix ha
    have hjob : (base, pix) ∈ cursorJobs xcim stride iw ih rx ry := by
      rw [mem_cursorJobs]
      exact ⟨j, i, ⟨h1, h2, h3, h4⟩, by rw [hbase, hpix]⟩
    have hb1 := visRect_bounds xcim iw ih rx ry j i h1 h2 h3 h4
    refine ⟨?_, ?_, ?_⟩
    · -- the alpha byte of the pixel is untouched
      rw [drawCursorImage_eq_drawJobs, drawJobs_lookup _ image _ hpair]
      have hnone : (cursorJobs xcim stride iw ih rx ry).find?
          (fun jb => decide (jb.1 ≤ base + 3 ∧ base + 3 < jb.1 + 3)) = none := by
        rw [List.find?_eq_none]
        intro jb hjb
        rcases (mem_cursorJobs xcim stride iw ih rx ry jb).mp hjb with
          ⟨j2, i2, ⟨g1, g2, g3, g4⟩, rfl⟩
        simp only [decide_eq_true_eq]
        by_cases hsame : j2 = j ∧ i2 = i
        · rcases hsame with ⟨rfl, rfl⟩
          rw [← hbase]
          omega
        · have hb2 := visRect_bounds xcim iw ih rx ry j2 i2 g1 g2 g3 g4
          have hsep := cursorBase_sep stride iw ih (cursorX xcim rx) (cursorY xcim ry)
            j2 i2 j i hstride hb2.1 hb2.2.1 hb1.1 hb1.2.1 hb2.2.2.1 hb2.2.2.2
            hb1.2.2.1 hb1.2.2.2 hsame
          rw [← hbase] at hsep
          omega
      rw [hnone]
    · intro ha255
      have hfound : ∀ o, base ≤ o ∧ o < base + 3 →
          (cursorJobs xcim stride iw ih rx ry).find?
            (fun x => decide (x.1 ≤ o ∧ o < x.1 + 3)) = some (base, pix) :=
        fun o ht => find?_touch_of_mem (cursorJobs xcim stride iw ih rx ry) o (base, pix)
          hpair hjob ht
      have hcond : pix / 2 ^ 24 % 256 = 255 := by rw [← ha]; exact ha255
      refine ⟨?_, ?_, ?_⟩
      · rw [drawCursorImage_eq_drawJobs, drawJobs_lookup _ image _ hpair,
          hfound (base + 2) (show base ≤ base + 2 ∧ base + 2 < base + 3 by omega)]
        dsimp only
        rw [drawCursorPixel_at2, if_pos hcond]
      · rw [drawCursorImage_eq_drawJobs, drawJobs_lookup _ image _ hpair,
          hfound (base + 1) (show base ≤ base + 1 ∧ base + 1 < base + 3 by omega)]
        dsimp only
        rw [drawCursorPixel_at1, if_pos hcond]
      · rw [drawCursorImage_eq_drawJobs, drawJobs_lookup _ image _ hpair,
          hfound base (show base ≤ base ∧ base < base + 3 by omega)]
        dsimp only
        rw [drawCursorPixel_at0, if_pos hcond]
    · intro halt
      have hfound : ∀ o, base ≤ o ∧ o < base + 3 →
          (cursorJobs xcim stride iw ih rx ry).find?
            (fun x => decide (x.1 ≤ o ∧ o < x.1 + 3)) = some (base, pix) :=
        fun o ht => find?_touch_of_mem (cursorJobs xcim stride iw ih rx ry) o (base, pix)
          hpair hjob ht
      have hcond : ¬ pix / 2 ^ 24 % 256 = 255 := by
        rw [← ha]
        omega
      have hamax : a ≤ 255 := by omega
      have hprepix := hpre (xcim.width * j.toNat + i.toNat)
      rw [← hpix] at hprepix
      refine ⟨?_, ?_, ?_⟩
      · rw [drawCursorImage_eq_drawJobs, drawJobs_lookup _ image _ hpair,
          hfound (base + 2) (show base ≤ base + 2 ∧ base + 2 < base + 3 by omega)]
        dsimp only
        rw [drawCursorPixel_at2, if_neg hcond, ← ha]
        exact Nat.mod_eq_of_lt (blend_lt_256 _ _ _ (himg (base + 2)) hamax
          (by rw [ha]; exact hprepix.1))
      · rw [drawCursorImage_eq_drawJobs, drawJobs_lookup _ image _ hpair,
          hfound (base + 1) (show base ≤ base + 1 ∧ base + 1 < base + 3 by omega)]
        dsimp only
        rw [drawCursorPixel_at1, if_neg hcond, ← ha]
        exact Nat.mod_eq_of_lt (blend_lt_256 _ _ _ (himg (base + 1)) hamax
          (by rw [ha]; exact hprepix.2.1))
      · rw [drawCursorImage_eq_drawJobs, drawJobs_lookup _ image _ hpair,
          hfound base (show base ≤ base ∧ base < base + 3 by omega)]
        dsimp only
        rw [drawCursorPixel_at0, if_neg hcond, ← ha]
        exact Nat.mod_eq_of_lt (blend_lt_256 _ _ _ (himg base) hamax
          (by rw [ha]; exact hprepix.2.2))

/-- Witness for `C6_cursor_composite`: a 4x4 black image with a 2x2
fully opaque red cursor at window position (1,1).  The blended pixel
at cursor coordinate (0,0) lands at byte base 36 (bottom-up row 2):
its R byte becomes 255, its B and G bytes 0, its alpha byte and the
byte at offset 0 (outside the cursor rectangle) stay untouched. -/
theorem C6_cursor_composite_witness :
    drawCursorImage ⟨1, 1, 0, 0, 2, 2, fun _ => 4294901760⟩ (fun _ => 0) 16 4 4 0 0 38
      = 255 ∧
    drawCursorImage ⟨1, 1, 0, 0, 2, 2, fun _ => 4294901760⟩ (fun _ => 0) 16 4 4 0 0 37 = 0 ∧
    drawCursorImage ⟨1, 1, 0, 0, 2, 2, fun _ => 4294901760⟩ (fun _ => 0) 16 4 4 0 0 36 = 0 ∧
    drawCursorImage ⟨1, 1, 0, 0, 2, 2, fun _ => 4294901760⟩ (fun _ => 0) 16 4 4 0 0 39 = 0 ∧
    drawCursorImage ⟨1, 1, 0, 0, 2, 2, fun _ => 4294901760⟩ (fun _ => 0) 16 4 4 0 0 0 = 0 := by
  have h := C6_cursor_composite ⟨1, 1, 0, 0, 2, 2, fun _ => 4294901760⟩ (fun _ => 0) 16 4 4 0 0
    (by norm_num) (fun o => by norm_num) (fun idx => by norm_num)
  have h2 := h.2 0 0 (by decide) (by decide) (by decide) (by decide) 36 4294901760 255
    (by decide) rfl (by norm_num)
  have h255 := h2.2.1 rfl
  refine ⟨?_, ?_, ?_, ?_, ?_⟩
  · simpa using h255.1
  · simpa using h255.2.1
  · simpa using h255.2.2
  · simpa using h2.1
  · apply h.1 0
    intro j i hj1 hj2 hi1 hi2
    simp only [visT, visB, visL, visR, cursorX, cursorY] at hj1 hj2 hi1 hi2
    norm_num at hj1 hj2 hi1 hi2
    interval_cases j <;> interval_cases i <;> exact ⟨by decide, by decide, by decide⟩
